import Mathlib

/-
  Verification of the isoalloc core allocator (src/src/iso_alloc.c) against its
  natural-language specification.

  The C file is shallowly embedded: bitmap words are natural numbers (32-bit
  values), user-page memory is a byte map `Nat → Nat` over absolute addresses
  (little-endian host, as the source assumes for memcpy of a uint64), the
  free-slot cache is a map `Nat → Int` together with its two cursors, and every
  path that can call LOG_AND_ABORT returns `Except String _` whose `error`
  constructor stands for the process abort.  The pointer-masking machinery
  (MASK_ZONE_PTRS / UNMASK_ZONE_PTRS) only XORs the stored region pointers and
  is identity on this view, so it is not represented.

  Constants and macros live in the header iso_alloc_internal.h, which is not
  part of the given sources; they are modelled from the spec where so marked.
-/

/-- Modelled from the spec: ALIGNMENT, minimum user-pointer alignment (missing header). -/
def ALIGNMENT : Nat := 8

/-- Modelled from the spec: BITS_PER_CHUNK, state bits per chunk (missing header). -/
def BITS_PER_CHUNK : Nat := 2

/-- Modelled from the spec: BITS_PER_DWORD, bitmap word width (missing header). -/
def BITS_PER_DWORD : Nat := 32

/-- Modelled from the spec: ZONE_USER_SIZE, user region bytes per zone, 4 MiB (missing header). -/
def ZONE_USER_SIZE : Nat := 4194304

/-- Modelled from the spec: BIT_SLOT_CACHE_SZ, capacity of the per-zone free cache (missing header). -/
def BIT_SLOT_CACHE_SZ : Nat := 255

/-- Modelled from the spec: WASTED_SZ_MULTIPLIER, waste-avoidance threshold (missing header). -/
def WASTED_SZ_MULTIPLIER : Nat := 8

/-- Modelled from the spec: ZONE_1024, cutoff below which the waste check is disabled (missing header). -/
def ZONE_1024 : Nat := 1024

/-- Modelled from the spec: POISON_BYTE, the byte written over a chunk on free (missing header). -/
def POISON_BYTE : Nat := 0xDE

/-- Modelled from the spec: CANARY_SIZE, canary width in bytes (missing header). -/
def CANARY_SIZE : Nat := 8

/-- Modelled from the spec: MAX_DEFAULT_ZONE_SZ, the largest default size class (missing header). -/
def MAX_DEFAULT_ZONE_SZ : Nat := 4096

/-- Modelled from the spec: CANARY_COUNT_DIV, canary density divisor (missing header). -/
def CANARY_COUNT_DIV : Nat := 100

/-- Modelled from the spec: the sentinel BAD_BIT_SLOT (missing header).  Its value must be
-1 for `memset(zone->free_bit_slot_cache, BAD_BIT_SLOT, ...)` at iso_alloc.c:109 to fill the
int64 cache entries with the sentinel, so the whole-array memset is modelled as setting every
entry to -1. -/
def BAD_BIT_SLOT : Int := -1

/-- Modelled from the spec: the default_zones size-class table (missing header). -/
def default_zones : List Nat := [16, 32, 64, 128, 256, 512, 1024, 2048, 4096]

/-- Modelled from the spec: GET_BIT of the missing header, ((p >> n) & 0x1). -/
def getBit (x n : Nat) : Nat := (x >>> n) &&& 1

/-- Modelled from the spec: SET_BIT of the missing header, (p |= (0x1 << n)). -/
def setBit (x n : Nat) : Nat := x ||| (1 <<< n)

/-- Modelled from the spec: UNSET_BIT of the missing header, (p &= ~(0x1 << n)); the
complement of an int32 is the 32-bit mask (2^32 - 1) XOR (1 << n). -/
def unsetBit (x n : Nat) : Nat := x &&& ((2 ^ 32 - 1) ^^^ (1 <<< n))

/-- One little-endian 64-bit store, byte by byte (memcpy of a uint64 in the source). -/
def write64 (mem : Nat → Nat) (addr v : Nat) : Nat → Nat :=
  fun a => if addr ≤ a ∧ a < addr + 8 then (v >>> (8 * (a - addr))) % 256 else mem a

/-- One little-endian 64-bit load, byte by byte (the uint64 dereferences in check_canary). -/
def read64 (mem : Nat → Nat) (addr : Nat) : Nat :=
  mem addr + 2 ^ 8 * mem (addr + 1) + 2 ^ 16 * mem (addr + 2) + 2 ^ 24 * mem (addr + 3) +
    2 ^ 32 * mem (addr + 4) + 2 ^ 40 * mem (addr + 5) + 2 ^ 48 * mem (addr + 6) +
    2 ^ 56 * mem (addr + 7)

/-- memset(p, v, n) on the byte map. -/
def memsetBytes (mem : Nat → Nat) (p v n : Nat) : Nat → Nat :=
  fun a => if p ≤ a ∧ a < p + n then v else mem a

/-- iso_clear_user_chunk (iso_alloc.c:177-179): memset the chunk with POISON_BYTE. -/
def iso_clear_user_chunk (mem : Nat → Nat) (p size : Nat) : Nat → Nat :=
  memsetBytes mem p POISON_BYTE size

/-- Model of struct iso_alloc_zone, restricted to the fields the verified operations
touch.  `bm` holds the 32-bit bitmap words indexed by word number, `mem` the bytes of
the whole address space (the zone only ever reads and writes inside its user region).
The stored (masked) region pointers and the guard-page addresses are not represented;
`user_pages_end` is derived below exactly as iso_new_zone computes it. -/
structure iso_alloc_zone where
  internally_managed : Bool
  is_full : Bool
  chunk_size : Nat
  bitmap_size : Nat
  user_pages_start : Nat
  canary_secret : Nat
  bm : Nat → Nat
  mem : Nat → Nat
  free_bit_slot_cache : Nat → Int
  free_bit_slot_cache_index : Int
  free_bit_slot_cache_usable : Int
  next_free_bit_slot : Int

/-- user_pages_end as iso_new_zone sets it (iso_alloc.c:360): start + ZONE_USER_SIZE. -/
def user_pages_end (z : iso_alloc_zone) : Nat := z.user_pages_start + ZONE_USER_SIZE

/-- Modelled from the spec: POINTER_FROM_BITSLOT of the missing header,
user_pages_start + (slot / BITS_PER_CHUNK) * chunk_size. -/
def pointer_from_bitslot (z : iso_alloc_zone) (bit_slot : Nat) : Nat :=
  z.user_pages_start + (bit_slot / BITS_PER_CHUNK) * z.chunk_size

/-- The canary value for the chunk at `p` (iso_alloc.c:674): canary_secret XOR (uint64)p. -/
def canary_value (z : iso_alloc_zone) (p : Nat) : Nat :=
  (z.canary_secret ^^^ p) % 2 ^ 64

/-- write_canary (iso_alloc.c:673-678): store the canary at p and at p + chunk_size - 8. -/
def write_canary (z : iso_alloc_zone) (mem : Nat → Nat) (p : Nat) : Nat → Nat :=
  let canary := canary_value z p
  let mem1 := write64 mem p canary
  write64 mem1 (p + z.chunk_size - 8) canary

/-- check_canary (iso_alloc.c:681-694): abort when either end of the chunk at `p`
does not hold the canary.  `mem` is the memory state at the moment of the check. -/
def check_canary (z : iso_alloc_zone) (mem : Nat → Nat) (p : Nat) : Except String Unit :=
  let v := read64 mem p
  let canary := canary_value z p
  if v ≠ canary then Except.error "canary at beginning of chunk corrupted"
  else
    let v2 := read64 mem (p + z.chunk_size - 8)
    if v2 ≠ canary then Except.error "canary at end of chunk corrupted"
    else Except.ok ()

/-- get_next_free_bit_slot (iso_alloc.c:162-171).  Returns the new zone state and the
popped slot; the guard is taken verbatim: usable below 0, at or beyond the cache
capacity, or strictly beyond the write cursor. -/
def get_next_free_bit_slot (z : iso_alloc_zone) : iso_alloc_zone × Int :=
  if z.free_bit_slot_cache_usable < 0 ∨ (BIT_SLOT_CACHE_SZ : Int) ≤ z.free_bit_slot_cache_usable ∨
      z.free_bit_slot_cache_index < z.free_bit_slot_cache_usable then
    (z, BAD_BIT_SLOT)
  else
    let v := z.free_bit_slot_cache z.free_bit_slot_cache_usable.toNat
    ({ z with
        next_free_bit_slot := v
        free_bit_slot_cache :=
          Function.update z.free_bit_slot_cache z.free_bit_slot_cache_usable.toNat BAD_BIT_SLOT
        free_bit_slot_cache_usable := z.free_bit_slot_cache_usable + 1 }, v)

/-- insert_free_bit_slot (iso_alloc.c:135-160): scan [usable, BIT_SLOT_CACHE_SZ) for a
duplicate (abort on hit), silently drop when the cache is full, else append. -/
def insert_free_bit_slot (z : iso_alloc_zone) (bit_slot : Int) : Except String iso_alloc_zone :=
  if (List.range BIT_SLOT_CACHE_SZ).any (fun i =>
      decide (z.free_bit_slot_cache_usable ≤ (i : Int)) && (z.free_bit_slot_cache i == bit_slot)) then
    Except.error "zone already contains bit slot in cache"
  else if (BIT_SLOT_CACHE_SZ : Int) ≤ z.free_bit_slot_cache_index then
    Except.ok z
  else
    Except.ok { z with
      free_bit_slot_cache :=
        Function.update z.free_bit_slot_cache z.free_bit_slot_cache_index.toNat bit_slot
      free_bit_slot_cache_index := z.free_bit_slot_cache_index + 1 }

/-- Modelled from the spec: ALIGN_SZ_DOWN of the missing header aligns down to ALIGNMENT. -/
def ALIGN_SZ_DOWN (n : Nat) : Nat := n - n % ALIGNMENT

/-- max_bitmap_idx as the source computes it: bitmap_size / sizeof(int32_t). -/
def max_bitmap_idx (z : iso_alloc_zone) : Nat := z.bitmap_size / 4

/-- One iteration of the inner loop of fill_free_bit_slot_cache (iso_alloc.c:119-131):
chunk pair k of word bm_idx is appended when its low bit is 0 and the cache not full. -/
def fill_cache_step (bm_idx : Nat) (z : iso_alloc_zone) (k : Nat) : iso_alloc_zone :=
  if (BIT_SLOT_CACHE_SZ : Int) ≤ z.free_bit_slot_cache_index then z
  else if getBit (z.bm bm_idx) (BITS_PER_CHUNK * k) = 0 then
    { z with
      free_bit_slot_cache := Function.update z.free_bit_slot_cache
        z.free_bit_slot_cache_index.toNat
        ((bm_idx * BITS_PER_DWORD + BITS_PER_CHUNK * k : Nat) : Int)
      free_bit_slot_cache_index := z.free_bit_slot_cache_index + 1 }
  else z

/-- Inner loop of fill_free_bit_slot_cache: visit the 16 chunk pairs of word bm_idx. -/
def fill_cache_word (z : iso_alloc_zone) (bm_idx : Nat) : iso_alloc_zone :=
  (List.range (BITS_PER_DWORD / BITS_PER_CHUNK)).foldl (fill_cache_step bm_idx) z

/-- Outer loop of fill_free_bit_slot_cache (iso_alloc.c:112-132): walk words from bm_idx
while the cache is not full; the third argument is the number of words left before
max_bitmap_idx (the in-loop bounds check). -/
def fill_cache_words : iso_alloc_zone → Nat → Nat → iso_alloc_zone
  | z, _, 0 => z
  | z, bm_idx, n + 1 =>
    if (BIT_SLOT_CACHE_SZ : Int) ≤ z.free_bit_slot_cache_index then z
    else fill_cache_words (fill_cache_word z bm_idx) (bm_idx + 1) n

/-- fill_free_bit_slot_cache (iso_alloc.c:94-133).  `rand` is the value of the random()
draw; the start index is ALIGN_SZ_DOWN((rand % max_bitmap_idx) / 4) as in the source
(never negative here, so the 0-clamp of line 105-107 is implicit). -/
def fill_free_bit_slot_cache (z : iso_alloc_zone) (rand : Nat) : iso_alloc_zone :=
  let maxIdx := max_bitmap_idx z
  let bm_idx := ALIGN_SZ_DOWN (rand % maxIdx / 4)
  let z1 := { z with
    free_bit_slot_cache := fun _ => BAD_BIT_SLOT
    free_bit_slot_cache_usable := 0
    free_bit_slot_cache_index := 0 }
  fill_cache_words z1 bm_idx (maxIdx - bm_idx)

/-- iso_scan_zone_free_slot (iso_alloc.c:395-410): first bitmap word equal to 0. -/
def iso_scan_zone_free_slot (z : iso_alloc_zone) : Int :=
  match (List.range (max_bitmap_idx z)).find? (fun i => z.bm i == 0) with
  | some i => ((i * BITS_PER_DWORD : Nat) : Int)
  | none => BAD_BIT_SLOT

/-- iso_scan_zone_free_slot_slow (iso_alloc.c:415-432): first chunk pair whose low bit is 0. -/
def iso_scan_zone_free_slot_slow (z : iso_alloc_zone) : Int :=
  match ((List.range (max_bitmap_idx z)).flatMap (fun i =>
      (List.range (BITS_PER_DWORD / BITS_PER_CHUNK)).map (fun k => (i, BITS_PER_CHUNK * k)))).find?
      (fun ij => getBit (z.bm ij.1) ij.2 == 0) with
  | some ij => ((ij.1 * BITS_PER_DWORD + ij.2 : Nat) : Int)
  | none => BAD_BIT_SLOT

/-- The part of is_zone_usable after the waste check (iso_alloc.c:452-487): refill the
cache when drained, pop, then fall back to the fast and slow scans.  The Bool is
whether a non-NULL zone is returned; the zone state carries the side effects that in C
persist through the returned pointer (cache, next_free_bit_slot, is_full). -/
def is_zone_usable_search (z : iso_alloc_zone) (rand : Nat) : iso_alloc_zone × Bool :=
  let z1 := if z.free_bit_slot_cache_usable = z.free_bit_slot_cache_index
            then fill_free_bit_slot_cache z rand else z
  let zs := get_next_free_bit_slot z1
  if zs.2 ≠ BAD_BIT_SLOT then (zs.1, true)
  else
    let bit_slot := iso_scan_zone_free_slot zs.1
    if bit_slot = BAD_BIT_SLOT then
      let bit_slot2 := iso_scan_zone_free_slot_slow zs.1
      if bit_slot2 = BAD_BIT_SLOT then ({ zs.1 with is_full := true }, false)
      else ({ zs.1 with next_free_bit_slot := bit_slot2 }, true)
    else ({ zs.1 with next_free_bit_slot := bit_slot }, true)

/-- is_zone_usable (iso_alloc.c:434-488).  `rand` feeds a possible cache refill. -/
def is_zone_usable (z : iso_alloc_zone) (size : Nat) (rand : Nat) : iso_alloc_zone × Bool :=
  if z.next_free_bit_slot ≠ BAD_BIT_SLOT then (z, true)
  else if size * WASTED_SZ_MULTIPLIER ≤ z.chunk_size ∧ ZONE_1024 < size then (z, false)
  else is_zone_usable_search z rand

/-- The over-neighbor audit block of iso_free_chunk_from_zone (iso_alloc.c:768-778):
after the chunk at `p` (chunk `chunk_number`) is freed, if the next chunk starts
strictly inside the user region and its "was used" bit is set, verify its canary.
`z1` is the zone state with the bitmap and memory already updated by the free. -/
def check_over_neighbor (z1 : iso_alloc_zone) (p chunk_number : Nat) : Except String Unit :=
  if p + z1.chunk_size < user_pages_end z1 then
    let bit_position_over := (chunk_number + 1) * BITS_PER_CHUNK
    let d_over := bit_position_over / BITS_PER_DWORD
    let b_over := z1.bm d_over
    let w_over := bit_position_over % BITS_PER_DWORD
    if getBit b_over (w_over + 1) = 1 then
      check_canary z1 z1.mem (pointer_from_bitslot z1 bit_position_over)
    else Except.ok ()
  else Except.ok ()

/-- The under-neighbor audit block of iso_free_chunk_from_zone (iso_alloc.c:780-790):
if the previous chunk starts strictly after user_pages_start (note: the source's
strict > skips the audit when the previous chunk IS the first chunk) and its
"was used" bit is set, verify its canary. -/
def check_under_neighbor (z1 : iso_alloc_zone) (p chunk_number : Nat) : Except String Unit :=
  if z1.user_pages_start < p - z1.chunk_size then
    let bit_position_under := (chunk_number - 1) * BITS_PER_CHUNK
    let d_under := bit_position_under / BITS_PER_DWORD
    let b_under := z1.bm d_under
    let w_under := bit_position_under % BITS_PER_DWORD
    if getBit b_under (w_under + 1) = 1 then
      check_canary z1 z1.mem (pointer_from_bitslot z1 bit_position_under)
    else Except.ok ()
  else Except.ok ()

/-- iso_free_chunk_from_zone (iso_alloc.c:715-795).  `p` is the address being freed;
`error` models LOG_AND_ABORT.  The two neighbor audit blocks are the two named
functions above. -/
def iso_free_chunk_from_zone (z : iso_alloc_zone) (p : Nat) (permanent : Bool) :
    Except String iso_alloc_zone :=
  if p % ALIGNMENT ≠ 0 then Except.error "chunk is not aligned"
  else
    let chunk_offset := p - z.user_pages_start
    if chunk_offset % z.chunk_size ≠ 0 then Except.error "chunk is not a multiple of chunk size"
    else
      let chunk_number := chunk_offset / z.chunk_size
      let bit_slot := chunk_number * BITS_PER_CHUNK
      let dwords_to_bit_slot := bit_slot / BITS_PER_DWORD
      let which_bit := bit_slot % BITS_PER_DWORD
      if z.bitmap_size ≤ dwords_to_bit_slot then
        Except.error "cannot calculate chunk location in bitmap"
      else
        let b := z.bm dwords_to_bit_slot
        if getBit b which_bit = 0 then Except.error "double free of chunk detected"
        else
          let b1 := setBit b (which_bit + 1)
          let b2 := if permanent = false then unsetBit b1 which_bit else b1
          let bm1 := Function.update z.bm dwords_to_bit_slot b2
          let mem1 := iso_clear_user_chunk z.mem p z.chunk_size
          let mem2 := write_canary z mem1 p
          let z1 := { z with bm := bm1, mem := mem2 }
          do
            check_over_neighbor z1 p chunk_number
            check_under_neighbor z1 p chunk_number
            let z2 ← insert_free_bit_slot z1 (bit_slot : Int)
            pure { z2 with is_full := false }

/-- The tail of _iso_alloc (iso_alloc.c:592-635): hand out the chunk at free_bit_slot,
aborting on a pointer beyond the user region or an already-set in-use bit, verifying
the canary and zeroing its first CANARY_SIZE bytes when the slot was previously used,
then flipping the pair to the in-use state (0,1).  The source clears
zone->next_free_bit_slot at line 594, before the checks; since nothing on this path
reads that field again, the clear is folded into the returned zone state. -/
def iso_alloc_chunk (z : iso_alloc_zone) (free_bit_slot : Nat) :
    Except String (iso_alloc_zone × Nat) :=
  let dwords_to_bit_slot := free_bit_slot / BITS_PER_DWORD
  let which_bit := free_bit_slot % BITS_PER_DWORD
  let p := pointer_from_bitslot z free_bit_slot
  let b := z.bm dwords_to_bit_slot
  if user_pages_end z < p then Except.error "allocating an address outside user pages"
  else if getBit b which_bit ≠ 0 then Except.error "cannot return allocated chunk"
  else do
    let mem1 ←
      if getBit b (which_bit + 1) = 1 then do
        check_canary z z.mem p
        pure (memsetBytes z.mem p 0 CANARY_SIZE)
      else pure z.mem
    let b1 := setBit b which_bit
    let b2 := unsetBit b1 (which_bit + 1)
    Except.ok ({ z with
      next_free_bit_slot := BAD_BIT_SLOT
      bm := Function.update z.bm dwords_to_bit_slot b2
      mem := mem1 }, p)

/-- The overflow guard of _iso_calloc (iso_alloc.c:520-524) on 64-bit size_t values:
abort iff nmemb > nmemb * size under 64-bit wraparound. -/
def iso_calloc_guard (nmemb size : Nat) : Except String Unit :=
  if nmemb * size % 2 ^ 64 < nmemb then Except.error "call to calloc will overflow"
  else Except.ok ()

/-- Modelled from the spec: ROUND_UP_SZ of the missing header rounds a size up to ALIGNMENT. -/
def ROUND_UP_SZ (n : Nat) : Nat := (n + ALIGNMENT - 1) / ALIGNMENT * ALIGNMENT

/-- The chunk_size iso_new_zone gives a zone requested at `size` (iso_alloc.c:327-335). -/
def iso_new_zone_chunk_size (size : Nat) : Nat :=
  if size % ALIGNMENT ≠ 0 then ROUND_UP_SZ size else size

/-- The size _iso_alloc picks for a brand-new zone when no existing zone fits
(iso_alloc.c:543-569): the first default class strictly greater than the request,
else the request itself (dedicated zone). -/
def alloc_new_zone_size (size : Nat) : Nat :=
  match default_zones.find? (fun d => decide (size < d)) with
  | some d => d
  | none => size

/-- The chunk_size of the zone _iso_alloc creates when no existing zone fits. -/
def alloc_new_zone_chunk_size (size : Nat) : Nat :=
  iso_new_zone_chunk_size (alloc_new_zone_size size)

/-- Follows the spec words for claim C6: the smallest default size class greater than
OR EQUAL to the request (to be compared with what the source computes). -/
def smallest_default_ge (size : Nat) : Option Nat :=
  default_zones.find? (fun d => decide (size ≤ d))

/-- Number of random() draws create_canary_chunks makes (iso_alloc.c:9-46): one per
canary, canary_count = (ZONE_USER_SIZE / chunk_size) / CANARY_COUNT_DIV, and none at
all for zones above MAX_DEFAULT_ZONE_SZ. -/
def canary_chunk_draws (chunk_size : Nat) : Nat :=
  if chunk_size ≤ MAX_DEFAULT_ZONE_SZ then ZONE_USER_SIZE / chunk_size / CANARY_COUNT_DIV else 0

/-- Advance an abstract PRNG (state-transition function `next`) by n draws. -/
def draws_n (next : Nat → Nat × Nat) : Nat → Nat → Nat
  | 0, s => s
  | n + 1, s => draws_n next n (next s).2

/-- The PRNG draws iso_new_zone makes (iso_alloc.c:374-385): canary_secret =
random() * random(), pointer_mask = random() * random(), then one draw per canary
chunk and one for fill_free_bit_slot_cache.  Returns ((canary_secret, pointer_mask),
state afterwards). -/
def iso_new_zone_draws (next : Nat → Nat × Nat) (size s : Nat) : (Nat × Nat) × Nat :=
  let r1 := next s
  let r2 := next r1.2
  let r3 := next r2.2
  let r4 := next r3.2
  ((r1.1 * r2.1, r3.1 * r4.1), draws_n next (canary_chunk_draws size + 1) r4.2)

/-- The (canary_secret, pointer_mask) pairs of the default zones in creation order,
threading the PRNG state. -/
def create_default_zones_draws (next : Nat → Nat × Nat) (s : Nat) :
    List (Nat × Nat) × Nat :=
  default_zones.foldl (fun acc size =>
    let r := iso_new_zone_draws next size acc.2
    (acc.1 ++ [r.1], r.2)) ([], s)

/-- The PRNG-relevant outcome of initialization: the per-zone secret pairs and the
root's zone_handle_mask. -/
structure init_rand_result where
  zone_draws : List (Nat × Nat)
  zone_handle_mask : Nat
  deriving DecidableEq

/-- The PRNG schedule of iso_alloc_initialize as the SOURCE orders it
(iso_alloc.c:227-252): the default zones are created from the initial (unseeded) PRNG
state s0, and only afterwards is srandom(seed) called, so zone_handle_mask =
random() * random() is drawn from the seeded state. -/
def iso_alloc_init_model (next : Nat → Nat × Nat) (s0 seed : Nat) : init_rand_result :=
  let zs := create_default_zones_draws next s0
  let r1 := next seed
  let r2 := next r1.2
  { zone_draws := zs.1, zone_handle_mask := r1.1 * r2.1 }

/-- Modelled from the spec (refinement comparison for claim C2): the PRNG schedule in
the ORDER THE SPEC STATES IT — seed first, then create the default zones, finally draw
zone_handle_mask. -/
def iso_alloc_init_spec_order (next : Nat → Nat × Nat) (_s0 seed : Nat) : init_rand_result :=
  let zs := create_default_zones_draws next seed
  let r1 := next zs.2
  let r2 := next r1.2
  { zone_draws := zs.1, zone_handle_mask := r1.1 * r2.1 }

/-- A concrete PRNG transition used as a distinguishing input: output the state, step by one. -/
def step_next : Nat → Nat × Nat := fun s => (s, s + 1)

/-- The free-slot-cache invariant claimed by the spec (claim C3):
usable ≤ index ≤ BIT_SLOT_CACHE_SZ (with usable non-negative). -/
@[reducible]
def cache_inv (z : iso_alloc_zone) : Prop :=
  0 ≤ z.free_bit_slot_cache_usable ∧
    z.free_bit_slot_cache_usable ≤ z.free_bit_slot_cache_index ∧
    z.free_bit_slot_cache_index ≤ (BIT_SLOT_CACHE_SZ : Int)

/-- The invariant the code actually maintains (amended claim C3): the read cursor may
overtake the write cursor by exactly one. -/
@[reducible]
def cache_inv_weak (z : iso_alloc_zone) : Prop :=
  0 ≤ z.free_bit_slot_cache_usable ∧
    z.free_bit_slot_cache_usable ≤ z.free_bit_slot_cache_index + 1 ∧
    z.free_bit_slot_cache_usable ≤ (BIT_SLOT_CACHE_SZ : Int) ∧
    z.free_bit_slot_cache_index ≤ (BIT_SLOT_CACHE_SZ : Int)

/-- The cache state a zone is born with (iso_alloc.c:382-385): fill the cache, then
prime next_free_bit_slot with one pop. -/
def zone_create_cache_prime (z : iso_alloc_zone) (rand : Nat) : iso_alloc_zone :=
  (get_next_free_bit_slot (fill_free_bit_slot_cache z rand)).1

/-- A neutral concrete zone used to build witnesses: 16-byte chunks, user region at
4096, all-free bitmap, zeroed memory, empty cache. -/
def zone0 : iso_alloc_zone where
  internally_managed := true
  is_full := false
  chunk_size := 16
  bitmap_size := 65536
  user_pages_start := 4096
  canary_secret := 0
  bm := fun _ => 0
  mem := fun _ => 0
  free_bit_slot_cache := fun _ => BAD_BIT_SLOT
  free_bit_slot_cache_index := 0
  free_bit_slot_cache_usable := 0
  next_free_bit_slot := BAD_BIT_SLOT

/-- A zone whose (4-byte) bitmap is entirely set: a refill finds nothing. -/
def zFullBm : iso_alloc_zone :=
  { zone0 with bitmap_size := 4, bm := fun _ => 0xFFFFFFFF }

/-- Concrete cache state for the C4 witness: three pending slots 7, 8, 9. -/
def zC4w : iso_alloc_zone :=
  { zone0 with free_bit_slot_cache_index := 3, free_bit_slot_cache := fun i => 7 + (i : Int) }

/-- Zone with only chunk 0 in use, for the C1 witness (double free of 4096). -/
def zC1w : iso_alloc_zone := { zone0 with bm := fun i => if i = 0 then 1 else 0 }

/-- Zone for the C5 counterexample: chunk 1 in use (bit 2), chunk 0 previously used
(bit 1) with no valid canary in memory. -/
def zC5 : iso_alloc_zone := { zone0 with bm := fun i => if i = 0 then 6 else 0 }

/-- Zone for the C5 amended witness: chunk 2 in use (bit 4), chunk 1 previously used
(bit 3) with no valid canary in memory. -/
def zC5w : iso_alloc_zone := { zone0 with bm := fun i => if i = 0 then 24 else 0 }

/-- The zone state after iso_free_chunk_from_zone has flipped chunk n's state bits
(iso_alloc.c:747-757) and poisoned and re-canaried the chunk (iso_alloc.c:760-762),
just before the neighbor audits; factored out to state the C5 theorems. -/
def free_updated_zone (z : iso_alloc_zone) (n : Nat) (perm : Bool) : iso_alloc_zone :=
  { z with
    bm := Function.update z.bm (n * BITS_PER_CHUNK / BITS_PER_DWORD)
      (if perm = false then
        unsetBit
          (setBit (z.bm (n * BITS_PER_CHUNK / BITS_PER_DWORD))
            (n * BITS_PER_CHUNK % BITS_PER_DWORD + 1))
          (n * BITS_PER_CHUNK % BITS_PER_DWORD)
      else
        setBit (z.bm (n * BITS_PER_CHUNK / BITS_PER_DWORD))
          (n * BITS_PER_CHUNK % BITS_PER_DWORD + 1))
    mem := write_canary z
      (iso_clear_user_chunk z.mem (z.user_pages_start + n * z.chunk_size) z.chunk_size)
      (z.user_pages_start + n * z.chunk_size) }

/-- The zone state after the (wrongly succeeding) free of chunk 1 of zC5. -/
def zC5_freed : iso_alloc_zone :=
  match iso_free_chunk_from_zone zC5 4112 false with
  | Except.ok zf => zf
  | Except.error _ => zC5

/-- A 16384-byte-class zone with an unprimed free slot, for the C7 witness. -/
def zC7w : iso_alloc_zone := { zone0 with chunk_size := 16384 }

/-- A 32-byte-chunk zone with chunk 0 in use, for the C8 witness. -/
def zC8w : iso_alloc_zone :=
  { zone0 with chunk_size := 32, bm := fun i => if i = 0 then 1 else 0 }

/-- Zone for the C10 witness: chunk 0 in state (1,0) carrying a valid canary
(canary_secret = 0, so the canary for chunk 4096 is the value 4096, whose
little-endian bytes put 16 at addresses 4097 and 4105). -/
def zC10w : iso_alloc_zone :=
  { zone0 with
    bm := fun i => if i = 0 then 2 else 0
    mem := fun a => if a = 4097 ∨ a = 4105 then 16 else 0 }

/- ================================================================
   Theorems.  General-purpose lemmas first, then one theorem per claim
   (plus its witness or counterexample).
   ================================================================ -/

theorem getBit_eq_div_mod (x n : Nat) : getBit x n = x / 2 ^ n % 2 := by
  simp [getBit, Nat.shiftRight_eq_div_pow, Nat.and_one_is_mod]

theorem getBit_eq_one_iff {x n : Nat} : getBit x n = 1 ↔ x.testBit n = true := by
  rw [getBit_eq_div_mod, Nat.testBit_to_div_mod]
  simp

theorem getBit_eq_zero_iff {x n : Nat} : getBit x n = 0 ↔ x.testBit n = false := by
  rw [getBit_eq_div_mod, Nat.testBit_to_div_mod]
  simp

theorem testBit_setBit_self (x n : Nat) : (setBit x n).testBit n = true := by
  simp [setBit, Nat.testBit_lor, Nat.shiftLeft_eq, Nat.testBit_two_pow_self]

theorem testBit_setBit_of_ne {m n : Nat} (x : Nat) (h : m ≠ n) :
    (setBit x n).testBit m = x.testBit m := by
  simp [setBit, Nat.testBit_lor, Nat.shiftLeft_eq, Nat.testBit_two_pow_of_ne (Ne.symm h)]

theorem two_pow_testBit_eq (k m : Nat) : (2 ^ k).testBit m = decide (k = m) := by
  by_cases h : k = m
  · subst h
    simp [Nat.testBit_two_pow_self]
  · simp [Nat.testBit_two_pow_of_ne h, h]

theorem mask32_testBit (k m : Nat) :
    ((2 ^ 32 - 1) ^^^ (1 <<< k)).testBit m = (decide (m < 32) ^^ decide (k = m)) := by
  rw [Nat.shiftLeft_eq, one_mul, Nat.testBit_xor, Nat.testBit_two_pow_sub_one,
    two_pow_testBit_eq]

theorem testBit_unsetBit_self (x n : Nat) (hn : n < 32) : (unsetBit x n).testBit n = false := by
  unfold unsetBit
  rw [Nat.testBit_land, mask32_testBit]
  simp [hn]

theorem testBit_unsetBit_of_ne {m n : Nat} (x : Nat) (h : m ≠ n) (hm : m < 32) :
    (unsetBit x n).testBit m = x.testBit m := by
  unfold unsetBit
  rw [Nat.testBit_land, mask32_testBit]
  simp [hm, Ne.symm h]

theorem write64_apply_out (mem : Nat → Nat) (a v x : Nat) (h : x < a ∨ a + 8 ≤ x) :
    write64 mem a v x = mem x := by
  unfold write64
  rw [if_neg]
  omega

theorem memsetBytes_apply_in (mem : Nat → Nat) (p v n a : Nat) (h : p ≤ a ∧ a < p + n) :
    memsetBytes mem p v n a = v := by
  unfold memsetBytes
  rw [if_pos h]

theorem memsetBytes_apply_out (mem : Nat → Nat) (p v n a : Nat) (h : a < p ∨ p + n ≤ a) :
    memsetBytes mem p v n a = mem a := by
  unfold memsetBytes
  rw [if_neg]
  omega

theorem read64_congr {m1 m2 : Nat → Nat} (a : Nat)
    (h : ∀ x, a ≤ x → x < a + 8 → m1 x = m2 x) : read64 m1 a = read64 m2 a := by
  unfold read64
  rw [h a (by omega) (by omega), h (a + 1) (by omega) (by omega), h (a + 2) (by omega) (by omega),
    h (a + 3) (by omega) (by omega), h (a + 4) (by omega) (by omega),
    h (a + 5) (by omega) (by omega), h (a + 6) (by omega) (by omega),
    h (a + 7) (by omega) (by omega)]

theorem read64_write64_same (mem : Nat → Nat) (a v : Nat) :
    read64 (write64 mem a v) a = v % 2 ^ 64 := by
  unfold read64 write64
  rw [if_pos (by omega : a ≤ a ∧ a < a + 8),
    if_pos (by omega : a ≤ a + 1 ∧ a + 1 < a + 8),
    if_pos (by omega : a ≤ a + 2 ∧ a + 2 < a + 8),
    if_pos (by omega : a ≤ a + 3 ∧ a + 3 < a + 8),
    if_pos (by omega : a ≤ a + 4 ∧ a + 4 < a + 8),
    if_pos (by omega : a ≤ a + 5 ∧ a + 5 < a + 8),
    if_pos (by omega : a ≤ a + 6 ∧ a + 6 < a + 8),
    if_pos (by omega : a ≤ a + 7 ∧ a + 7 < a + 8)]
  simp only [Nat.add_sub_cancel_left, Nat.sub_self, Nat.shiftRight_eq_div_pow]
  norm_num
  omega

theorem read64_write64_out (mem : Nat → Nat) (a v b : Nat) (h : b + 8 ≤ a ∨ a + 8 ≤ b) :
    read64 (write64 mem a v) b = read64 mem b := by
  exact read64_congr b (fun x hx1 hx2 => write64_apply_out mem a v x (by omega))

theorem except_bind_ok {α β : Type} {e : Except String α} {f : α → Except String β} {b : β} :
    Except.bind e f = Except.ok b ↔ ∃ a, e = Except.ok a ∧ f a = Except.ok b := by
  cases e <;> simp [Except.bind]

theorem fill_cache_step_usable (i : Nat) (z : iso_alloc_zone) (k : Nat) :
    (fill_cache_step i z k).free_bit_slot_cache_usable = z.free_bit_slot_cache_usable := by
  unfold fill_cache_step
  split_ifs <;> rfl

theorem fill_cache_step_index (i : Nat) (z : iso_alloc_zone) (k : Nat) :
    z.free_bit_slot_cache_index ≤ (fill_cache_step i z k).free_bit_slot_cache_index ∧
      (fill_cache_step i z k).free_bit_slot_cache_index ≤
        max (BIT_SLOT_CACHE_SZ : Int) z.free_bit_slot_cache_index := by
  unfold fill_cache_step
  split_ifs with h1 h2 <;> simp <;> try omega

theorem fill_cache_foldl_usable (l : List Nat) (i : Nat) (z : iso_alloc_zone) :
    (l.foldl (fill_cache_step i) z).free_bit_slot_cache_usable =
      z.free_bit_slot_cache_usable := by
  induction l generalizing z with
  | nil => rfl
  | cons a t ih => rw [List.foldl_cons, ih, fill_cache_step_usable]

theorem fill_cache_foldl_index (l : List Nat) (i : Nat) (z : iso_alloc_zone) :
    z.free_bit_slot_cache_index ≤ (l.foldl (fill_cache_step i) z).free_bit_slot_cache_index ∧
      (l.foldl (fill_cache_step i) z).free_bit_slot_cache_index ≤
        max (BIT_SLOT_CACHE_SZ : Int) z.free_bit_slot_cache_index := by
  induction l generalizing z with
  | nil => simp
  | cons a t ih =>
    rw [List.foldl_cons]
    have h1 := fill_cache_step_index i z a
    have h2 := ih (fill_cache_step i z a)
    omega

theorem fill_cache_words_usable (n : Nat) (i : Nat) (z : iso_alloc_zone) :
    (fill_cache_words z i n).free_bit_slot_cache_usable = z.free_bit_slot_cache_usable := by
  induction n generalizing z i with
  | zero => rfl
  | succ m ih =>
    unfold fill_cache_words
    split_ifs
    · rfl
    · rw [ih, fill_cache_word, fill_cache_foldl_usable]

theorem fill_cache_words_index (n : Nat) (i : Nat) (z : iso_alloc_zone) :
    z.free_bit_slot_cache_index ≤ (fill_cache_words z i n).free_bit_slot_cache_index ∧
      (fill_cache_words z i n).free_bit_slot_cache_index ≤
        max (BIT_SLOT_CACHE_SZ : Int) z.free_bit_slot_cache_index := by
  induction n generalizing z i with
  | zero => simp [fill_cache_words]
  | succ m ih =>
    unfold fill_cache_words
    split_ifs
    · simp
    · have h1 : z.free_bit_slot_cache_index ≤
          (fill_cache_word z i).free_bit_slot_cache_index ∧
            (fill_cache_word z i).free_bit_slot_cache_index ≤
              max (BIT_SLOT_CACHE_SZ : Int) z.free_bit_slot_cache_index :=
        fill_cache_foldl_index (List.range (BITS_PER_DWORD / BITS_PER_CHUNK)) i z
      have h2 := ih (i + 1) (fill_cache_word z i)
      omega

theorem fill_free_bit_slot_cache_inv (z : iso_alloc_zone) (rand : Nat) :
    (fill_free_bit_slot_cache z rand).free_bit_slot_cache_usable = 0 ∧
      0 ≤ (fill_free_bit_slot_cache z rand).free_bit_slot_cache_index ∧
      (fill_free_bit_slot_cache z rand).free_bit_slot_cache_index ≤ (BIT_SLOT_CACHE_SZ : Int) := by
  have hu : (fill_free_bit_slot_cache z rand).free_bit_slot_cache_usable =
      ({ z with
          free_bit_slot_cache := fun _ => BAD_BIT_SLOT
          free_bit_slot_cache_usable := 0
          free_bit_slot_cache_index := 0 } : iso_alloc_zone).free_bit_slot_cache_usable :=
    fill_cache_words_usable _ _ _
  have hi : ({ z with
        free_bit_slot_cache := fun _ => BAD_BIT_SLOT
        free_bit_slot_cache_usable := 0
        free_bit_slot_cache_index := 0 } : iso_alloc_zone).free_bit_slot_cache_index ≤
      (fill_free_bit_slot_cache z rand).free_bit_slot_cache_index ∧
        (fill_free_bit_slot_cache z rand).free_bit_slot_cache_index ≤
          max (BIT_SLOT_CACHE_SZ : Int)
            ({ z with
                free_bit_slot_cache := fun _ => BAD_BIT_SLOT
                free_bit_slot_cache_usable := 0
                free_bit_slot_cache_index := 0 } : iso_alloc_zone).free_bit_slot_cache_index :=
    fill_cache_words_index _ _ _
  simp only at hu hi
  exact ⟨hu, by omega, by omega⟩

theorem get_next_preserves_weak (z : iso_alloc_zone) (h : cache_inv_weak z) :
    cache_inv_weak (get_next_free_bit_slot z).1 := by
  obtain ⟨h1, h2, h3, h4⟩ := h
  unfold get_next_free_bit_slot
  split_ifs with hg
  · exact ⟨h1, h2, h3, h4⟩
  · push_neg at hg
    refine ⟨?_, ?_, ?_, ?_⟩ <;> simp <;> omega

theorem insert_preserves_weak (z : iso_alloc_zone) (s : Int) (z' : iso_alloc_zone)
    (h : cache_inv_weak z) (hok : insert_free_bit_slot z s = Except.ok z') :
    cache_inv_weak z' := by
  obtain ⟨g1, g2, g3, g4⟩ := h
  unfold insert_free_bit_slot at hok
  split_ifs at hok with h1 h2
  · simp only [Except.ok.injEq] at hok
    subst hok
    exact ⟨g1, g2, g3, g4⟩
  · simp only [Except.ok.injEq] at hok
    subst hok
    refine ⟨?_, ?_, ?_, ?_⟩ <;> simp <;> omega

/-- Claim C3, as stated, is false: the invariant usable ≤ index is NOT preserved by
get_next_free_bit_slot.  Concretely, refilling the cache of a zone whose bitmap is
entirely in use leaves usable = index = 0 (a state satisfying the invariant), and the
very next pop — the guard at iso_alloc.c:163-164 tests usable > index, not
usable ≥ index — advances usable to 1 > index. -/
theorem C3_counterexample :
    cache_inv (fill_free_bit_slot_cache zFullBm 0) ∧
      ¬ cache_inv ((get_next_free_bit_slot (fill_free_bit_slot_cache zFullBm 0)).1) := by
  constructor
  · decide
  · decide

/-- Claim C3 amended: the invariant that does hold after zone creation and is preserved
by fill_free_bit_slot_cache, get_next_free_bit_slot and (successful)
insert_free_bit_slot is 0 ≤ usable ≤ index + 1 and usable, index ≤ BIT_SLOT_CACHE_SZ:
the read cursor may overtake the write cursor by exactly one. -/
theorem C3_cache_invariant_amended :
    (∀ z rand, cache_inv_weak (zone_create_cache_prime z rand)) ∧
      (∀ z rand, cache_inv_weak (fill_free_bit_slot_cache z rand)) ∧
      (∀ z, cache_inv_weak z → cache_inv_weak (get_next_free_bit_slot z).1) ∧
      (∀ z s z', cache_inv_weak z → insert_free_bit_slot z s = Except.ok z' →
        cache_inv_weak z') := by
  have hfill : ∀ z rand, cache_inv_weak (fill_free_bit_slot_cache z rand) := by
    intro z rand
    have h := fill_free_bit_slot_cache_inv z rand
    exact ⟨by omega, by omega, by omega, by omega⟩
  refine ⟨?_, hfill, get_next_preserves_weak, fun z s z' h hok => insert_preserves_weak z s z' h hok⟩
  intro z rand
  exact get_next_preserves_weak _ (hfill z rand)

/-- Witness for the amended C3 theorem at a concrete zone. -/
theorem C3_cache_invariant_witness :
    cache_inv_weak ((get_next_free_bit_slot zone0).1) :=
  C3_cache_invariant_amended.2.2.1 zone0 (by decide)

/-- Claim C4, as stated, is false: when the read cursor HAS exactly caught up with the
write cursor (usable = index, in range), get_next_free_bit_slot does not return
without effect — the guard at iso_alloc.c:163-164 only fires for usable > index, so
the pop goes ahead and advances usable. -/
theorem C4_counterexample :
    zone0.free_bit_slot_cache_usable = zone0.free_bit_slot_cache_index ∧
      0 ≤ zone0.free_bit_slot_cache_usable ∧
      zone0.free_bit_slot_cache_usable < (BIT_SLOT_CACHE_SZ : Int) ∧
      (get_next_free_bit_slot zone0).1.free_bit_slot_cache_usable ≠
        zone0.free_bit_slot_cache_usable := by
  refine ⟨rfl, by decide, by decide, by decide⟩

/-- Claim C4 amended: get_next_free_bit_slot returns BAD_BIT_SLOT with no effect when
usable is out of range [0, BIT_SLOT_CACHE_SZ) or STRICTLY beyond the write cursor;
in every other case (including usable = index) it pops: it returns cache[usable],
stores it in next_free_bit_slot, overwrites exactly that entry with the sentinel and
advances usable by one, leaving index unchanged. -/
theorem C4_get_next_amended (z : iso_alloc_zone) :
    ((z.free_bit_slot_cache_usable < 0 ∨
        (BIT_SLOT_CACHE_SZ : Int) ≤ z.free_bit_slot_cache_usable ∨
        z.free_bit_slot_cache_index < z.free_bit_slot_cache_usable) →
      get_next_free_bit_slot z = (z, BAD_BIT_SLOT)) ∧
      (0 ≤ z.free_bit_slot_cache_usable →
        z.free_bit_slot_cache_usable < (BIT_SLOT_CACHE_SZ : Int) →
        z.free_bit_slot_cache_usable ≤ z.free_bit_slot_cache_index →
        (get_next_free_bit_slot z).2 =
            z.free_bit_slot_cache z.free_bit_slot_cache_usable.toNat ∧
          (get_next_free_bit_slot z).1.next_free_bit_slot = (get_next_free_bit_slot z).2 ∧
          (get_next_free_bit_slot z).1.free_bit_slot_cache_usable =
            z.free_bit_slot_cache_usable + 1 ∧
          (get_next_free_bit_slot z).1.free_bit_slot_cache z.free_bit_slot_cache_usable.toNat =
            BAD_BIT_SLOT ∧
          (∀ i, i ≠ z.free_bit_slot_cache_usable.toNat →
            (get_next_free_bit_slot z).1.free_bit_slot_cache i = z.free_bit_slot_cache i) ∧
          (get_next_free_bit_slot z).1.free_bit_slot_cache_index =
            z.free_bit_slot_cache_index) := by
  constructor
  · intro hg
    unfold get_next_free_bit_slot
    rw [if_pos (by omega)]
  · intro h1 h2 h3
    unfold get_next_free_bit_slot
    rw [if_neg (by omega)]
    refine ⟨rfl, rfl, rfl, by simp [Function.update], fun i hi => by simp [Function.update, hi], rfl⟩

/-- Witness for the amended C4 theorem: popping the zone whose cache holds 7, 8, 9. -/
theorem C4_get_next_amended_witness :
    (get_next_free_bit_slot zC4w).2 = zC4w.free_bit_slot_cache zC4w.free_bit_slot_cache_usable.toNat ∧
      (get_next_free_bit_slot zC4w).1.free_bit_slot_cache_usable =
        zC4w.free_bit_slot_cache_usable + 1 :=
  ⟨((C4_get_next_amended zC4w).2 (by decide) (by decide) (by decide)).1,
    ((C4_get_next_amended zC4w).2 (by decide) (by decide) (by decide)).2.2.1⟩

theorem is_zone_usable_search_false_full (z : iso_alloc_zone) (rand : Nat)
    (h : (is_zone_usable_search z rand).2 = false) :
    (is_zone_usable_search z rand).1.is_full = true := by
  unfold is_zone_usable_search at h ⊢
  generalize (if z.free_bit_slot_cache_usable = z.free_bit_slot_cache_index then
      fill_free_bit_slot_cache z rand else z) = z1 at h ⊢
  by_cases hA : (get_next_free_bit_slot z1).2 ≠ BAD_BIT_SLOT
  · rw [if_pos hA] at h
    simp at h
  · rw [if_neg hA] at h ⊢
    by_cases hB : iso_scan_zone_free_slot (get_next_free_bit_slot z1).1 = BAD_BIT_SLOT
    · rw [if_pos hB] at h ⊢
      by_cases hC : iso_scan_zone_free_slot_slow (get_next_free_bit_slot z1).1 = BAD_BIT_SLOT
      · rw [if_pos hC]
      · rw [if_neg hC] at h
        simp at h
    · rw [if_neg hB] at h
      simp at h

/-- Claim C7: is_zone_usable returns NULL whenever next_free_bit_slot is BAD_BIT_SLOT,
chunk_size ≥ size * WASTED_SZ_MULTIPLIER and size > ZONE_1024; with a primed
next_free_bit_slot it returns the zone untouched; for size ≤ ZONE_1024 the waste check
is skipped (control falls through to the refill/scan search), and in that case a NULL
return can only come from the search having found no free slot, which marks the zone
full. -/
theorem C7_is_zone_usable (z : iso_alloc_zone) (size rand : Nat) :
    (z.next_free_bit_slot ≠ BAD_BIT_SLOT → is_zone_usable z size rand = (z, true)) ∧
      (z.next_free_bit_slot = BAD_BIT_SLOT → size * WASTED_SZ_MULTIPLIER ≤ z.chunk_size →
        ZONE_1024 < size → is_zone_usable z size rand = (z, false)) ∧
      (z.next_free_bit_slot = BAD_BIT_SLOT → size ≤ ZONE_1024 →
        is_zone_usable z size rand = is_zone_usable_search z rand) ∧
      (size ≤ ZONE_1024 → (is_zone_usable z size rand).2 = false →
        (is_zone_usable z size rand).1.is_full = true) := by
  refine ⟨?_, ?_, ?_, ?_⟩
  · intro h
    unfold is_zone_usable
    rw [if_pos h]
  · intro h1 h2 h3
    unfold is_zone_usable
    rw [if_neg (by simp [h1]), if_pos ⟨h2, h3⟩]
  · intro h1 h2
    unfold is_zone_usable
    rw [if_neg (by simp [h1]), if_neg (by unfold ZONE_1024 at h2 ⊢; omega)]
  · intro h1 h2
    unfold is_zone_usable at h2 ⊢
    by_cases hn : z.next_free_bit_slot ≠ BAD_BIT_SLOT
    · rw [if_pos hn] at h2
      simp at h2
    · have hw : ¬ (size * WASTED_SZ_MULTIPLIER ≤ z.chunk_size ∧ ZONE_1024 < size) := by
        unfold ZONE_1024 at h1 ⊢
        omega
      rw [if_neg hn, if_neg hw] at h2 ⊢
      exact is_zone_usable_search_false_full z rand h2

/-- Witness for C7: a 16384-byte zone with no primed slot rejects a 2048-byte request
(2048 * 8 = 16384 ≤ 16384 and 2048 > 1024). -/
theorem C7_is_zone_usable_witness : is_zone_usable zC7w 2048 0 = (zC7w, false) :=
  (C7_is_zone_usable zC7w 2048 0).2.1 (by decide) (by decide) (by decide)

/-- Claim C6, as stated, is false: the selection loop at iso_alloc.c:548 tests
size < default_zones[i] STRICTLY, so a request of exactly 1024 creates a 2048-byte
class zone, not the 1024 class the spec words (smallest class ≥ size) would give. -/
theorem C6_counterexample :
    alloc_new_zone_chunk_size 1024 = 2048 ∧ smallest_default_ge 1024 = some 1024 ∧
      (2048 : Nat) ≠ 1024 := by decide

/-- Claim C6 amended: when no zone fits and the request does not exceed the largest
default class, the created zone's chunk_size is a default class at least as large as
the request; for requests strictly below the largest class it is the smallest default
class STRICTLY greater than the request (so exact class-sized requests are bumped one
class up; a request of exactly 4096 instead falls through to a dedicated 4096 zone). -/
theorem mem_default_zones_iff (d : Nat) :
    d ∈ default_zones ↔ d = 16 ∨ d = 32 ∨ d = 64 ∨ d = 128 ∨ d = 256 ∨ d = 512 ∨
      d = 1024 ∨ d = 2048 ∨ d = 4096 := by
  simp [default_zones]

theorem alloc_new_zone_chunk_size_lt16 (size : Nat) (h1 : size < 16) :
    alloc_new_zone_chunk_size size = 16 := by
  have e1 : decide (size < 16) = true := decide_eq_true h1
  unfold alloc_new_zone_chunk_size alloc_new_zone_size
  rw [show default_zones = [16, 32, 64, 128, 256, 512, 1024, 2048, 4096] from rfl]
  simp only [List.find?_cons, e1]
  simp [iso_new_zone_chunk_size, ALIGNMENT]

theorem alloc_new_zone_chunk_size_lt32 (size : Nat) (h1 : ¬ size < 16) (h2 : size < 32) :
    alloc_new_zone_chunk_size size = 32 := by
  have e1 : decide (size < 16) = false := decide_eq_false h1
  have e2 : decide (size < 32) = true := decide_eq_true h2
  unfold alloc_new_zone_chunk_size alloc_new_zone_size
  rw [show default_zones = [16, 32, 64, 128, 256, 512, 1024, 2048, 4096] from rfl]
  simp only [List.find?_cons, e1, e2]
  simp [iso_new_zone_chunk_size, ALIGNMENT]

theorem alloc_new_zone_chunk_size_lt64 (size : Nat) (h1 : ¬ size < 16) (h2 : ¬ size < 32) (h3 : size < 64) :
    alloc_new_zone_chunk_size size = 64 := by
  have e1 : decide (size < 16) = false := decide_eq_false h1
  have e2 : decide (size < 32) = false := decide_eq_false h2
  have e3 : decide (size < 64) = true := decide_eq_true h3
  unfold alloc_new_zone_chunk_size alloc_new_zone_size
  rw [show default_zones = [16, 32, 64, 128, 256, 512, 1024, 2048, 4096] from rfl]
  simp only [List.find?_cons, e1, e2, e3]
  simp [iso_new_zone_chunk_size, ALIGNMENT]

theorem alloc_new_zone_chunk_size_lt128 (size : Nat) (h1 : ¬ size < 16) (h2 : ¬ size < 32) (h3 : ¬ size < 64) (h4 : size < 128) :
    alloc_new_zone_chunk_size size = 128 := by
  have e1 : decide (size < 16) = false := decide_eq_false h1
  have e2 : decide (size < 32) = false := decide_eq_false h2
  have e3 : decide (size < 64) = false := decide_eq_false h3
  have e4 : decide (size < 128) = true := decide_eq_true h4
  unfold alloc_new_zone_chunk_size alloc_new_zone_size
  rw [show default_zones = [16, 32, 64, 128, 256, 512, 1024, 2048, 4096] from rfl]
  simp only [List.find?_cons, e1, e2, e3, e4]
  simp [iso_new_zone_chunk_size, ALIGNMENT]

theorem alloc_new_zone_chunk_size_lt256 (size : Nat) (h1 : ¬ size < 16) (h2 : ¬ size < 32) (h3 : ¬ size < 64) (h4 : ¬ size < 128) (h5 : size < 256) :
    alloc_new_zone_chunk_size size = 256 := by
  have e1 : decide (size < 16) = false := decide_eq_false h1
  have e2 : decide (size < 32) = false := decide_eq_false h2
  have e3 : decide (size < 64) = false := decide_eq_false h3
  have e4 : decide (size < 128) = false := decide_eq_false h4
  have e5 : decide (size < 256) = true := decide_eq_true h5
  unfold alloc_new_zone_chunk_size alloc_new_zone_size
  rw [show default_zones = [16, 32, 64, 128, 256, 512, 1024, 2048, 4096] from rfl]
  simp only [List.find?_cons, e1, e2, e3, e4, e5]
  simp [iso_new_zone_chunk_size, ALIGNMENT]

theorem alloc_new_zone_chunk_size_lt512 (size : Nat) (h1 : ¬ size < 16) (h2 : ¬ size < 32) (h3 : ¬ size < 64) (h4 : ¬ size < 128) (h5 : ¬ size < 256) (h6 : size < 512) :
    alloc_new_zone_chunk_size size = 512 := by
  have e1 : decide (size < 16) = false := decide_eq_false h1
  have e2 : decide (size < 32) = false := decide_eq_false h2
  have e3 : decide (size < 64) = false := decide_eq_false h3
  have e4 : decide (size < 128) = false := decide_eq_false h4
  have e5 : decide (size < 256) = false := decide_eq_false h5
  have e6 : decide (size < 512) = true := decide_eq_true h6
  unfold alloc_new_zone_chunk_size alloc_new_zone_size
  rw [show default_zones = [16, 32, 64, 128, 256, 512, 1024, 2048, 4096] from rfl]
  simp only [List.find?_cons, e1, e2, e3, e4, e5, e6]
  simp [iso_new_zone_chunk_size, ALIGNMENT]

theorem alloc_new_zone_chunk_size_lt1024 (size : Nat) (h1 : ¬ size < 16) (h2 : ¬ size < 32) (h3 : ¬ size < 64) (h4 : ¬ size < 128) (h5 : ¬ size < 256) (h6 : ¬ size < 512) (h7 : size < 1024) :
    alloc_new_zone_chunk_size size = 1024 := by
  have e1 : decide (size < 16) = false := decide_eq_false h1
  have e2 : decide (size < 32) = false := decide_eq_false h2
  have e3 : decide (size < 64) = false := decide_eq_false h3
  have e4 : decide (size < 128) = false := decide_eq_false h4
  have e5 : decide (size < 256) = false := decide_eq_false h5
  have e6 : decide (size < 512) = false := decide_eq_false h6
  have e7 : decide (size < 1024) = true := decide_eq_true h7
  unfold alloc_new_zone_chunk_size alloc_new_zone_size
  rw [show default_zones = [16, 32, 64, 128, 256, 512, 1024, 2048, 4096] from rfl]
  simp only [List.find?_cons, e1, e2, e3, e4, e5, e6, e7]
  simp [iso_new_zone_chunk_size, ALIGNMENT]

theorem alloc_new_zone_chunk_size_lt2048 (size : Nat) (h1 : ¬ size < 16) (h2 : ¬ size < 32) (h3 : ¬ size < 64) (h4 : ¬ size < 128) (h5 : ¬ size < 256) (h6 : ¬ size < 512) (h7 : ¬ size < 1024) (h8 : size < 2048) :
    alloc_new_zone_chunk_size size = 2048 := by
  have e1 : decide (size < 16) = false := decide_eq_false h1
  have e2 : decide (size < 32) = false := decide_eq_false h2
  have e3 : decide (size < 64) = false := decide_eq_false h3
  have e4 : decide (size < 128) = false := decide_eq_false h4
  have e5 : decide (size < 256) = false := decide_eq_false h5
  have e6 : decide (size < 512) = false := decide_eq_false h6
  have e7 : decide (size < 1024) = false := decide_eq_false h7
  have e8 : decide (size < 2048) = true := decide_eq_true h8
  unfold alloc_new_zone_chunk_size alloc_new_zone_size
  rw [show default_zones = [16, 32, 64, 128, 256, 512, 1024, 2048, 4096] from rfl]
  simp only [List.find?_cons, e1, e2, e3, e4, e5, e6, e7, e8]
  simp [iso_new_zone_chunk_size, ALIGNMENT]

theorem alloc_new_zone_chunk_size_lt4096 (size : Nat) (h1 : ¬ size < 16) (h2 : ¬ size < 32) (h3 : ¬ size < 64) (h4 : ¬ size < 128) (h5 : ¬ size < 256) (h6 : ¬ size < 512) (h7 : ¬ size < 1024) (h8 : ¬ size < 2048) (h9 : size < 4096) :
    alloc_new_zone_chunk_size size = 4096 := by
  have e1 : decide (size < 16) = false := decide_eq_false h1
  have e2 : decide (size < 32) = false := decide_eq_false h2
  have e3 : decide (size < 64) = false := decide_eq_false h3
  have e4 : decide (size < 128) = false := decide_eq_false h4
  have e5 : decide (size < 256) = false := decide_eq_false h5
  have e6 : decide (size < 512) = false := decide_eq_false h6
  have e7 : decide (size < 1024) = false := decide_eq_false h7
  have e8 : decide (size < 2048) = false := decide_eq_false h8
  have e9 : decide (size < 4096) = true := decide_eq_true h9
  unfold alloc_new_zone_chunk_size alloc_new_zone_size
  rw [show default_zones = [16, 32, 64, 128, 256, 512, 1024, 2048, 4096] from rfl]
  simp only [List.find?_cons, e1, e2, e3, e4, e5, e6, e7, e8, e9]
  simp [iso_new_zone_chunk_size, ALIGNMENT]

theorem C6_size_class_amended :
    ∀ size : Nat, size ≤ 4096 →
      alloc_new_zone_chunk_size size ∈ default_zones ∧
        size ≤ alloc_new_zone_chunk_size size ∧
        (size < 4096 → size < alloc_new_zone_chunk_size size ∧
          ∀ d ∈ default_zones, size < d → alloc_new_zone_chunk_size size ≤ d) := by
  intro size hle
  by_cases hbig : size = 4096
  · subst hbig
    refine ⟨by decide, by decide, fun hx => absurd hx (by omega)⟩
  · by_cases h1 : size < 16
    · rw [alloc_new_zone_chunk_size_lt16 size h1]
      exact ⟨by decide, by omega, fun hx => ⟨by omega, fun d hd hlt2 => by rw [mem_default_zones_iff] at hd; omega⟩⟩
    · by_cases h2 : size < 32
      · rw [alloc_new_zone_chunk_size_lt32 size h1 h2]
        exact ⟨by decide, by omega, fun hx => ⟨by omega, fun d hd hlt2 => by rw [mem_default_zones_iff] at hd; omega⟩⟩
      · by_cases h3 : size < 64
        · rw [alloc_new_zone_chunk_size_lt64 size h1 h2 h3]
          exact ⟨by decide, by omega, fun hx => ⟨by omega, fun d hd hlt2 => by rw [mem_default_zones_iff] at hd; omega⟩⟩
        · by_cases h4 : size < 128
          · rw [alloc_new_zone_chunk_size_lt128 size h1 h2 h3 h4]
            exact ⟨by decide, by omega, fun hx => ⟨by omega, fun d hd hlt2 => by rw [mem_default_zones_iff] at hd; omega⟩⟩
          · by_cases h5 : size < 256
            · rw [alloc_new_zone_chunk_size_lt256 size h1 h2 h3 h4 h5]
              exact ⟨by decide, by omega, fun hx => ⟨by omega, fun d hd hlt2 => by rw [mem_default_zones_iff] at hd; omega⟩⟩
            · by_cases h6 : size < 512
              · rw [alloc_new_zone_chunk_size_lt512 size h1 h2 h3 h4 h5 h6]
                exact ⟨by decide, by omega, fun hx => ⟨by omega, fun d hd hlt2 => by rw [mem_default_zones_iff] at hd; omega⟩⟩
              · by_cases h7 : size < 1024
                · rw [alloc_new_zone_chunk_size_lt1024 size h1 h2 h3 h4 h5 h6 h7]
                  exact ⟨by decide, by omega, fun hx => ⟨by omega, fun d hd hlt2 => by rw [mem_default_zones_iff] at hd; omega⟩⟩
                · by_cases h8 : size < 2048
                  · rw [alloc_new_zone_chunk_size_lt2048 size h1 h2 h3 h4 h5 h6 h7 h8]
                    exact ⟨by decide, by omega, fun hx => ⟨by omega, fun d hd hlt2 => by rw [mem_default_zones_iff] at hd; omega⟩⟩
                  · have h9 : size < 4096 := by omega
                    rw [alloc_new_zone_chunk_size_lt4096 size h1 h2 h3 h4 h5 h6 h7 h8 h9]
                    exact ⟨by decide, by omega, fun hx => ⟨by omega, fun d hd hlt2 => by rw [mem_default_zones_iff] at hd; omega⟩⟩

theorem C6_size_class_amended_witness : alloc_new_zone_chunk_size 1000 ∈ default_zones :=
  (C6_size_class_amended 1000 (by decide)).1

/-- Claim C9, as stated, is false: the guard nmemb > nmemb * size only sees the 64-bit
wrapped product, so the overflowing pair nmemb = 2^63, size = 3 (product 3 * 2^63 ≥
2^64, wrapping to 2^63 ≥ nmemb) passes the check and no abort happens. -/
theorem C9_counterexample :
    2 ^ 64 ≤ 2 ^ 63 * 3 ∧ (iso_calloc_guard (2 ^ 63) 3).isOk = true := by
  exact ⟨by norm_num, by rfl⟩

/-- Claim C9 amended: _iso_calloc aborts exactly when the 64-bit wrapped product is
smaller than nmemb.  That check does abort calloc(SIZE_MAX, 2), and it never aborts a
multiplication that does not overflow (for size ≥ 1), but it does not catch every
overflowing pair. -/
theorem C9_calloc_overflow_amended :
    (iso_calloc_guard (2 ^ 64 - 1) 2).isOk = false ∧
      (∀ nmemb size : Nat, 1 ≤ size → nmemb * size < 2 ^ 64 →
        iso_calloc_guard nmemb size = Except.ok ()) := by
  constructor
  · rfl
  · intro n s hs hlt
    unfold iso_calloc_guard
    rw [Nat.mod_eq_of_lt hlt, if_neg]
    have h1 : n * 1 ≤ n * s := Nat.mul_le_mul_left n hs
    omega

/-- Witness for the amended C9 theorem: calloc(7, 9) passes the guard. -/
theorem C9_calloc_overflow_amended_witness : iso_calloc_guard 7 9 = Except.ok () :=
  C9_calloc_overflow_amended.2 7 9 (by decide) (by decide)

set_option maxRecDepth 100000 in
/-- Claim C2, as stated, is false: in iso_alloc_initialize the call to srandom comes
AFTER the default zones are created (iso_alloc.c:240-248), so the per-zone
canary_secret and pointer_mask draws do not depend on the seed.  With the PRNG
transition step_next, initial state 0 and seed 1, the zone draws produced by the
source order differ from those the spec order (seed first) would produce. -/
theorem C2_counterexample :
    (iso_alloc_init_model step_next 0 1).zone_draws ≠
      (iso_alloc_init_spec_order step_next 0 1).zone_draws := by
  decide

/-- Claim C2 amended: initialization seeds the PRNG only AFTER creating the default
zones, so the canary_secret/pointer_mask of every default zone are functions of the
initial (unseeded) PRNG state alone — independent of the seed — and only the root's
zone_handle_mask is drawn from the seeded PRNG (it depends only on the seed). -/
theorem C2_seed_after_zones :
    (∀ next s0 seed1 seed2,
        (iso_alloc_init_model next s0 seed1).zone_draws =
          (iso_alloc_init_model next s0 seed2).zone_draws) ∧
      (∀ next s0a s0b seed,
        (iso_alloc_init_model next s0a seed).zone_handle_mask =
          (iso_alloc_init_model next s0b seed).zone_handle_mask) ∧
      (∀ next s0 seed,
        (iso_alloc_init_model next s0 seed).zone_draws =
          (create_default_zones_draws next s0).1) := by
  exact ⟨fun next s0 a b => rfl, fun next a b seed => rfl, fun next s0 seed => rfl⟩

theorem hbind_ok {α β : Type} {e : Except String α} {f : α → Except String β} {b : β} :
    (e >>= f) = Except.ok b ↔ ∃ a, e = Except.ok a ∧ f a = Except.ok b :=
  except_bind_ok

theorem canary_value_lt (z : iso_alloc_zone) (p : Nat) : canary_value z p < 2 ^ 64 :=
  Nat.mod_lt _ (by norm_num)

theorem getBit_eq_of_testBit_eq {x y : Nat} (m : Nat) (h : x.testBit m = y.testBit m) :
    getBit x m = getBit y m := by
  cases hx : x.testBit m with
  | false => rw [getBit_eq_zero_iff.2 hx, getBit_eq_zero_iff.2 (by rw [← h]; exact hx)]
  | true => rw [getBit_eq_one_iff.2 hx, getBit_eq_one_iff.2 (by rw [← h]; exact hx)]

theorem insert_ok_fields (z : iso_alloc_zone) (s : Int) (z' : iso_alloc_zone)
    (h : insert_free_bit_slot z s = Except.ok z') :
    z'.bm = z.bm ∧ z'.mem = z.mem ∧ z'.user_pages_start = z.user_pages_start ∧
      z'.chunk_size = z.chunk_size ∧ z'.bitmap_size = z.bitmap_size ∧
      z'.canary_secret = z.canary_secret := by
  unfold insert_free_bit_slot at h
  split_ifs at h
  · simp only [Except.ok.injEq] at h
    subst h
    exact ⟨rfl, rfl, rfl, rfl, rfl, rfl⟩
  · simp only [Except.ok.injEq] at h
    subst h
    exact ⟨rfl, rfl, rfl, rfl, rfl, rfl⟩

theorem iso_free_chunk_from_zone_ok (z : iso_alloc_zone) (p : Nat) (perm : Bool)
    (z' : iso_alloc_zone) (h : iso_free_chunk_from_zone z p perm = Except.ok z') :
    p % ALIGNMENT = 0 ∧
      (p - z.user_pages_start) % z.chunk_size = 0 ∧
      (p - z.user_pages_start) / z.chunk_size * BITS_PER_CHUNK / BITS_PER_DWORD <
        z.bitmap_size ∧
      getBit (z.bm ((p - z.user_pages_start) / z.chunk_size * BITS_PER_CHUNK / BITS_PER_DWORD))
        ((p - z.user_pages_start) / z.chunk_size * BITS_PER_CHUNK % BITS_PER_DWORD) ≠ 0 ∧
      z'.user_pages_start = z.user_pages_start ∧
      z'.chunk_size = z.chunk_size ∧
      z'.bitmap_size = z.bitmap_size ∧
      z'.canary_secret = z.canary_secret ∧
      z'.mem = write_canary z (iso_clear_user_chunk z.mem p z.chunk_size) p := by
  simp only [iso_free_chunk_from_zone] at h
  split_ifs at h with g1 g2 g3 g4 g5
  all_goals (
    rw [hbind_ok] at h
    obtain ⟨u1, hu1, h⟩ := h
    rw [hbind_ok] at h
    obtain ⟨u2, hu2, h⟩ := h
    rw [hbind_ok] at h
    obtain ⟨z2, hz2, h⟩ := h
    have hz' : Except.ok ({ z2 with is_full := false } : iso_alloc_zone) = Except.ok z' := h
    simp only [Except.ok.injEq] at hz'
    subst hz'
    obtain ⟨hbm, hmem, hsp, hcs, hbs, hsec⟩ := insert_ok_fields _ _ _ hz2
    exact ⟨by omega, by omega, by omega, g4, by simpa using hsp, by simpa using hcs,
      by simpa using hbs, by simpa using hsec, by simpa using hmem⟩)

theorem iso_free_chunk_from_zone_ok_bm (z : iso_alloc_zone) (p : Nat) (z' : iso_alloc_zone)
    (h : iso_free_chunk_from_zone z p false = Except.ok z') :
    z'.bm ((p - z.user_pages_start) / z.chunk_size * BITS_PER_CHUNK / BITS_PER_DWORD) =
      unsetBit
        (setBit (z.bm ((p - z.user_pages_start) / z.chunk_size * BITS_PER_CHUNK / BITS_PER_DWORD))
          ((p - z.user_pages_start) / z.chunk_size * BITS_PER_CHUNK % BITS_PER_DWORD + 1))
        ((p - z.user_pages_start) / z.chunk_size * BITS_PER_CHUNK % BITS_PER_DWORD) := by
  simp only [iso_free_chunk_from_zone] at h
  split_ifs at h with g1 g2 g3 g4 g5
  all_goals (
    rw [hbind_ok] at h
    obtain ⟨u1, hu1, h⟩ := h
    rw [hbind_ok] at h
    obtain ⟨u2, hu2, h⟩ := h
    rw [hbind_ok] at h
    obtain ⟨z2, hz2, h⟩ := h
    have hz' : Except.ok ({ z2 with is_full := false } : iso_alloc_zone) = Except.ok z' := h
    simp only [Except.ok.injEq] at hz'
    subst hz'
    obtain ⟨hbm, hmem, hsp, hcs, hbs, hsec⟩ := insert_ok_fields _ _ _ hz2
    simp only [hbm]
    simp [Function.update])

theorem double_free_guard_error (z : iso_alloc_zone) (p : Nat) (perm : Bool)
    (h1 : p % ALIGNMENT = 0)
    (h2 : (p - z.user_pages_start) % z.chunk_size = 0)
    (h3 : (p - z.user_pages_start) / z.chunk_size * BITS_PER_CHUNK / BITS_PER_DWORD <
      z.bitmap_size)
    (h4 : getBit (z.bm ((p - z.user_pages_start) / z.chunk_size * BITS_PER_CHUNK / BITS_PER_DWORD))
      ((p - z.user_pages_start) / z.chunk_size * BITS_PER_CHUNK % BITS_PER_DWORD) = 0) :
    iso_free_chunk_from_zone z p perm = Except.error "double free of chunk detected" := by
  simp only [iso_free_chunk_from_zone]
  rw [if_neg (by simp [h1]), if_neg (by simp [h2]), if_neg (by omega), if_pos h4]

/-- Claim C1: in iso_free_chunk_from_zone, once a pointer passes the alignment,
chunk-boundary and bitmap-range checks, a clear in-use bit (bit 0 of its bit-slot)
makes the process abort (iso_alloc.c:743-745); consequently a pointer whose
(non-permanent) free succeeded aborts when freed a second time, because the first
free cleared its in-use bit. -/
theorem C1_double_free_aborts :
    (∀ (z : iso_alloc_zone) (p : Nat) (perm : Bool),
        p % ALIGNMENT = 0 →
        (p - z.user_pages_start) % z.chunk_size = 0 →
        (p - z.user_pages_start) / z.chunk_size * BITS_PER_CHUNK / BITS_PER_DWORD <
          z.bitmap_size →
        getBit
            (z.bm ((p - z.user_pages_start) / z.chunk_size * BITS_PER_CHUNK / BITS_PER_DWORD))
            ((p - z.user_pages_start) / z.chunk_size * BITS_PER_CHUNK % BITS_PER_DWORD) = 0 →
        iso_free_chunk_from_zone z p perm = Except.error "double free of chunk detected") ∧
      (∀ (z : iso_alloc_zone) (p : Nat) (z' : iso_alloc_zone) (perm : Bool),
        iso_free_chunk_from_zone z p false = Except.ok z' →
        iso_free_chunk_from_zone z' p perm = Except.error "double free of chunk detected") := by
  refine ⟨fun z p perm h1 h2 h3 h4 => double_free_guard_error z p perm h1 h2 h3 h4, ?_⟩
  intro z p z' perm h
  obtain ⟨h1, h2, h3, h4, hsp, hcs, hbs, hsec, hmem⟩ := iso_free_chunk_from_zone_ok z p false z' h
  have hbm := iso_free_chunk_from_zone_ok_bm z p z' h
  apply double_free_guard_error z' p perm h1
  · rw [hsp, hcs]
    exact h2
  · rw [hsp, hcs, hbs]
    exact h3
  · rw [hsp, hcs, hbm]
    rw [getBit_eq_zero_iff]
    exact testBit_unsetBit_self _ _ (Nat.mod_lt _ (by decide))

set_option maxRecDepth 4000 in
/-- Witness for C1: freeing chunk 0 of zC1w succeeds once, and the second free of the
same pointer aborts with the double-free diagnostic. -/
theorem C1_double_free_aborts_witness :
    ∃ z', iso_free_chunk_from_zone zC1w 4096 false = Except.ok z' ∧
      iso_free_chunk_from_zone z' 4096 false = Except.error "double free of chunk detected" := by
  obtain ⟨z', hz⟩ : ∃ z', iso_free_chunk_from_zone zC1w 4096 false = Except.ok z' := ⟨_, rfl⟩
  exact ⟨z', hz, C1_double_free_aborts.2 zC1w 4096 z' false hz⟩

/-- Claim C8: after a successful non-permanent free of the chunk at `p`, every byte at
offsets [CANARY_SIZE, chunk_size - CANARY_SIZE) holds POISON_BYTE (the memset of
iso_alloc.c:760 only remains visible between the two canaries), and the 8-byte values
at offset 0 and at offset chunk_size - 8 both equal canary_secret XOR p
(write_canary, iso_alloc.c:762). -/
theorem C8_poison_and_canary (z : iso_alloc_zone) (p : Nat) (z' : iso_alloc_zone)
    (hcs : 16 ≤ z.chunk_size)
    (h : iso_free_chunk_from_zone z p false = Except.ok z') :
    (∀ off, CANARY_SIZE ≤ off → off < z.chunk_size - CANARY_SIZE →
        z'.mem (p + off) = POISON_BYTE) ∧
      read64 z'.mem p = canary_value z p ∧
      read64 z'.mem (p + z.chunk_size - CANARY_SIZE) = canary_value z p := by
  obtain ⟨-, -, -, -, -, -, -, -, hmem⟩ := iso_free_chunk_from_zone_ok z p false z' h
  refine ⟨?_, ?_, ?_⟩
  · intro off ho1 ho2
    simp only [CANARY_SIZE] at ho1 ho2
    rw [hmem]
    simp only [write_canary]
    rw [write64_apply_out _ _ _ _ (by omega)]
    rw [write64_apply_out _ _ _ _ (by omega)]
    simp only [iso_clear_user_chunk]
    exact memsetBytes_apply_in _ _ _ _ _ (by omega)
  · rw [hmem]
    simp only [write_canary]
    rw [read64_write64_out _ _ _ _ (by omega)]
    rw [read64_write64_same]
    exact Nat.mod_eq_of_lt (canary_value_lt z p)
  · simp only [CANARY_SIZE]
    rw [hmem]
    simp only [write_canary]
    rw [read64_write64_same]
    exact Nat.mod_eq_of_lt (canary_value_lt z p)

set_option maxRecDepth 4000 in
/-- Witness for C8: freeing chunk 0 of the 32-byte-chunk zone zC8w leaves POISON_BYTE
at offset 8 and the canary as the first 8-byte value. -/
theorem C8_poison_and_canary_witness :
    ∃ z', iso_free_chunk_from_zone zC8w 4096 false = Except.ok z' ∧
      z'.mem (4096 + 8) = POISON_BYTE ∧ read64 z'.mem 4096 = canary_value zC8w 4096 := by
  obtain ⟨z', hz⟩ : ∃ z', iso_free_chunk_from_zone zC8w 4096 false = Except.ok z' := ⟨_, rfl⟩
  have hc := C8_poison_and_canary zC8w 4096 z' (by decide) hz
  exact ⟨z', hz, hc.1 8 (by decide) (by decide), hc.2.1⟩

theorem except_ok_bind {α β : Type} (a : α) (f : α → Except String β) :
    (Except.ok a : Except String α) >>= f = f a := rfl

theorem except_pure_bind {α β : Type} (a : α) (f : α → Except String β) :
    (pure a : Except String α) >>= f = f a := rfl

theorem xor_mod_two_pow_cancel (s p : Nat) (hp : p < 2 ^ 64) :
    ((s ^^^ p) % 2 ^ 64) ^^^ p = s % 2 ^ 64 := by
  apply Nat.eq_of_testBit_eq
  intro i
  rcases Nat.lt_or_ge i 64 with hi | hi
  · rw [Nat.testBit_xor, Nat.testBit_mod_two_pow, Nat.testBit_xor, Nat.testBit_mod_two_pow]
    simp [hi, Bool.xor_assoc]
  · have hple : p < 2 ^ i := lt_of_lt_of_le hp (Nat.pow_le_pow_right (by norm_num) hi)
    have hpb : p.testBit i = false := Nat.testBit_lt_two_pow hple
    rw [Nat.testBit_xor, Nat.testBit_mod_two_pow, Nat.testBit_xor, Nat.testBit_mod_two_pow]
    simp [hpb, show ¬ i < 64 by omega]

/-- Claim C10 (implicit): when _iso_alloc hands out a chunk in state (1,0) — free,
previously used, valid canary — it zeroes only the first CANARY_SIZE bytes
(iso_alloc.c:617-620), so the returned chunk still carries the trailing canary
canary_secret XOR p in its last 8 bytes, and XORing that value with the chunk address
recovers the zone's canary secret. -/
theorem C10_canary_leak (z : iso_alloc_zone) (slot : Nat)
    (hcs : 16 ≤ z.chunk_size)
    (hp64 : pointer_from_bitslot z slot < 2 ^ 64)
    (hpe : pointer_from_bitslot z slot ≤ user_pages_end z)
    (h0 : getBit (z.bm (slot / BITS_PER_DWORD)) (slot % BITS_PER_DWORD) = 0)
    (h1 : getBit (z.bm (slot / BITS_PER_DWORD)) (slot % BITS_PER_DWORD + 1) = 1)
    (hv1 : read64 z.mem (pointer_from_bitslot z slot) =
      canary_value z (pointer_from_bitslot z slot))
    (hv2 : read64 z.mem (pointer_from_bitslot z slot + z.chunk_size - 8) =
      canary_value z (pointer_from_bitslot z slot)) :
    ∃ z', iso_alloc_chunk z slot = Except.ok (z', pointer_from_bitslot z slot) ∧
      read64 z'.mem (pointer_from_bitslot z slot + z.chunk_size - CANARY_SIZE) =
        canary_value z (pointer_from_bitslot z slot) ∧
      (read64 z'.mem (pointer_from_bitslot z slot + z.chunk_size - CANARY_SIZE) ^^^
          pointer_from_bitslot z slot) =
        z.canary_secret % 2 ^ 64 := by
  have hrd : read64 (memsetBytes z.mem (pointer_from_bitslot z slot) 0 CANARY_SIZE)
      (pointer_from_bitslot z slot + z.chunk_size - CANARY_SIZE) =
      canary_value z (pointer_from_bitslot z slot) := by
    simp only [CANARY_SIZE]
    rw [read64_congr _ (fun x hx1 hx2 =>
      memsetBytes_apply_out _ _ _ _ _ (by omega))]
    exact hv2
  refine ⟨{ z with
      next_free_bit_slot := BAD_BIT_SLOT
      bm := Function.update z.bm (slot / BITS_PER_DWORD)
        (unsetBit (setBit (z.bm (slot / BITS_PER_DWORD)) (slot % BITS_PER_DWORD))
          (slot % BITS_PER_DWORD + 1))
      mem := memsetBytes z.mem (pointer_from_bitslot z slot) 0 CANARY_SIZE }, ?_, ?_, ?_⟩
  · have hchk : check_canary z z.mem (pointer_from_bitslot z slot) = Except.ok () := by
      simp only [check_canary]
      rw [if_neg (by simp [hv1]), if_neg (by simp [hv2])]
    simp only [iso_alloc_chunk]
    rw [if_neg (Nat.not_lt.2 hpe), if_neg (fun hne => hne h0), if_pos h1, hchk,
      except_ok_bind, except_pure_bind]
  · exact hrd
  · rw [hrd]
    simp only [canary_value]
    exact xor_mod_two_pow_cancel z.canary_secret (pointer_from_bitslot z slot) hp64

set_option maxRecDepth 4000 in
/-- Witness for C10: allocating slot 0 of zC10w (state (1,0), canary value 4096 for
secret 0) returns the chunk at 4096 whose trailing 8 bytes still decode to the canary,
from which the zero canary secret is recovered. -/
theorem C10_canary_leak_witness :
    ∃ z', iso_alloc_chunk zC10w 0 = Except.ok (z', pointer_from_bitslot zC10w 0) ∧
      (read64 z'.mem (pointer_from_bitslot zC10w 0 + zC10w.chunk_size - CANARY_SIZE) ^^^
          pointer_from_bitslot zC10w 0) =
        zC10w.canary_secret % 2 ^ 64 := by
  obtain ⟨z', h1, h2, h3⟩ := C10_canary_leak zC10w 0 (by decide) (by decide) (by decide)
    (by decide) (by decide) (by decide) (by decide)
  exact ⟨z', h1, h3⟩

theorem except_error_bind {α β : Type} (e : String) (f : α → Except String β) :
    (Except.error e : Except String α) >>= f = Except.error e := rfl

theorem check_canary_error_of_mismatch (zz : iso_alloc_zone) (m : Nat → Nat) (pp : Nat)
    (hm : read64 m pp ≠ canary_value zz pp ∨
      read64 m (pp + zz.chunk_size - 8) ≠ canary_value zz pp) :
    ∃ e, check_canary zz m pp = Except.error e := by
  simp only [check_canary]
  by_cases hb : read64 m pp = canary_value zz pp
  · rw [if_neg (not_not_intro hb)]
    rcases hm with hm | hm
    · exact absurd hb hm
    · exact ⟨_, by rw [if_pos hm]⟩
  · exact ⟨_, by rw [if_pos hb]⟩

theorem free_mem_read_out (z : iso_alloc_zone) (p x : Nat) (hcs : 16 ≤ z.chunk_size)
    (hx : x + 8 ≤ p ∨ p + z.chunk_size ≤ x) :
    read64 (write_canary z (iso_clear_user_chunk z.mem p z.chunk_size) p) x =
      read64 z.mem x := by
  simp only [write_canary]
  rw [read64_write64_out _ _ _ _ (by omega), read64_write64_out _ _ _ _ (by omega)]
  exact read64_congr _ (fun y hy1 hy2 => memsetBytes_apply_out _ _ _ _ _ (by omega))

theorem getBit_free_update (b wb m : Nat) (perm : Bool) (hm : m < 32)
    (hm1 : m ≠ wb) (hm2 : m ≠ wb + 1) :
    getBit (if perm = false then unsetBit (setBit b (wb + 1)) wb else setBit b (wb + 1)) m =
      getBit b m := by
  have h1 : (setBit b (wb + 1)).testBit m = b.testBit m := testBit_setBit_of_ne _ hm2
  split_ifs
  · exact getBit_eq_of_testBit_eq m ((testBit_unsetBit_of_ne _ hm1 hm).trans h1)
  · exact getBit_eq_of_testBit_eq m h1

theorem iso_free_eq_do (z : iso_alloc_zone) (n : Nat) (perm : Bool)
    (hcs16 : 16 ≤ z.chunk_size)
    (hcs8 : z.chunk_size % ALIGNMENT = 0)
    (hst8 : z.user_pages_start % ALIGNMENT = 0)
    (hbmr : n * BITS_PER_CHUNK / BITS_PER_DWORD < z.bitmap_size)
    (hbit : getBit (z.bm (n * BITS_PER_CHUNK / BITS_PER_DWORD))
      (n * BITS_PER_CHUNK % BITS_PER_DWORD) = 1) :
    iso_free_chunk_from_zone z (z.user_pages_start + n * z.chunk_size) perm =
      (do
        check_over_neighbor (free_updated_zone z n perm)
          (z.user_pages_start + n * z.chunk_size) n
        check_under_neighbor (free_updated_zone z n perm)
          (z.user_pages_start + n * z.chunk_size) n
        let z2 ← insert_free_bit_slot (free_updated_zone z n perm)
          ((n * BITS_PER_CHUNK : Nat) : Int)
        pure { z2 with is_full := false }) := by
  have halign : (z.user_pages_start + n * z.chunk_size) % ALIGNMENT = 0 := by
    simp only [ALIGNMENT] at hcs8 hst8 ⊢
    simp [Nat.add_mod, Nat.mul_mod, hcs8, hst8]
  have hdiv : n * z.chunk_size / z.chunk_size = n :=
    Nat.mul_div_cancel n (by omega)
  simp only [iso_free_chunk_from_zone]
  rw [if_neg (by simp [halign])]
  rw [Nat.add_sub_cancel_left]
  rw [if_neg (by simp [Nat.mul_mod_left])]
  rw [hdiv]
  rw [if_neg (by omega)]
  rw [if_neg (by simp [hbit])]
  rfl

theorem free_updated_zone_chunk_size (z : iso_alloc_zone) (n : Nat) (perm : Bool) :
    (free_updated_zone z n perm).chunk_size = z.chunk_size := rfl

theorem free_updated_zone_start (z : iso_alloc_zone) (n : Nat) (perm : Bool) :
    (free_updated_zone z n perm).user_pages_start = z.user_pages_start := rfl

theorem free_updated_zone_mem (z : iso_alloc_zone) (n : Nat) (perm : Bool) :
    (free_updated_zone z n perm).mem =
      write_canary z
        (iso_clear_user_chunk z.mem (z.user_pages_start + n * z.chunk_size) z.chunk_size)
        (z.user_pages_start + n * z.chunk_size) := rfl

theorem free_updated_zone_canary_value (z : iso_alloc_zone) (n : Nat) (perm : Bool) (x : Nat) :
    canary_value (free_updated_zone z n perm) x = canary_value z x := rfl

theorem check_over_neighbor_error (z : iso_alloc_zone) (n : Nat) (perm : Bool)
    (hcs16 : 16 ≤ z.chunk_size)
    (hov : z.user_pages_start + n * z.chunk_size + z.chunk_size < user_pages_end z)
    (hobit : getBit (z.bm ((n + 1) * BITS_PER_CHUNK / BITS_PER_DWORD))
      ((n + 1) * BITS_PER_CHUNK % BITS_PER_DWORD + 1) = 1)
    (hmis : read64 z.mem (z.user_pages_start + (n + 1) * z.chunk_size) ≠
        canary_value z (z.user_pages_start + (n + 1) * z.chunk_size) ∨
      read64 z.mem (z.user_pages_start + (n + 1) * z.chunk_size + z.chunk_size - 8) ≠
        canary_value z (z.user_pages_start + (n + 1) * z.chunk_size)) :
    ∃ e, check_over_neighbor (free_updated_zone z n perm)
      (z.user_pages_start + n * z.chunk_size) n = Except.error e := by
  have hsucc : (n + 1) * z.chunk_size = n * z.chunk_size + z.chunk_size :=
    Nat.succ_mul n z.chunk_size
  have hcond1 : z.user_pages_start + n * z.chunk_size + (free_updated_zone z n perm).chunk_size <
      user_pages_end (free_updated_zone z n perm) := by
    rw [free_updated_zone_chunk_size]
    simp only [user_pages_end, free_updated_zone_start]
    simp only [user_pages_end] at hov
    exact hov
  have h32 : (n + 1) * BITS_PER_CHUNK % BITS_PER_DWORD + 1 < 32 := by
    simp only [BITS_PER_CHUNK, BITS_PER_DWORD]
    omega
  have hne1 : (n + 1) * BITS_PER_CHUNK % BITS_PER_DWORD + 1 ≠
      n * BITS_PER_CHUNK % BITS_PER_DWORD := by
    simp only [BITS_PER_CHUNK, BITS_PER_DWORD]
    omega
  have hne2 : (n + 1) * BITS_PER_CHUNK % BITS_PER_DWORD + 1 ≠
      n * BITS_PER_CHUNK % BITS_PER_DWORD + 1 := by
    simp only [BITS_PER_CHUNK, BITS_PER_DWORD]
    omega
  have hbitcond : getBit
      ((free_updated_zone z n perm).bm ((n + 1) * BITS_PER_CHUNK / BITS_PER_DWORD))
      ((n + 1) * BITS_PER_CHUNK % BITS_PER_DWORD + 1) = 1 := by
    simp only [free_updated_zone]
    by_cases hdw : (n + 1) * BITS_PER_CHUNK / BITS_PER_DWORD =
        n * BITS_PER_CHUNK / BITS_PER_DWORD
    · rw [hdw, Function.update_same]
      rw [getBit_free_update (z.bm (n * BITS_PER_CHUNK / BITS_PER_DWORD))
        (n * BITS_PER_CHUNK % BITS_PER_DWORD)
        ((n + 1) * BITS_PER_CHUNK % BITS_PER_DWORD + 1) perm h32 hne1 hne2]
      rw [hdw] at hobit
      exact hobit
    · rw [Function.update_noteq hdw]
      exact hobit
  have hptr : pointer_from_bitslot (free_updated_zone z n perm) ((n + 1) * BITS_PER_CHUNK) =
      z.user_pages_start + (n + 1) * z.chunk_size := by
    simp only [pointer_from_bitslot, free_updated_zone_start, free_updated_zone_chunk_size]
    have hq : (n + 1) * BITS_PER_CHUNK / BITS_PER_CHUNK = n + 1 := by
      simp only [BITS_PER_CHUNK]
      omega
    rw [hq]
  simp only [check_over_neighbor]
  rw [if_pos hcond1, if_pos hbitcond, hptr, free_updated_zone_mem]
  apply check_canary_error_of_mismatch
  simp only [free_updated_zone_canary_value, free_updated_zone_chunk_size]
  rcases hmis with hm | hm
  · left
    rw [free_mem_read_out z (z.user_pages_start + n * z.chunk_size) _ hcs16 (by omega)]
    exact hm
  · right
    rw [free_mem_read_out z (z.user_pages_start + n * z.chunk_size) _ hcs16 (by omega)]
    exact hm

theorem check_under_neighbor_error (z : iso_alloc_zone) (n : Nat) (perm : Bool)
    (hcs16 : 16 ≤ z.chunk_size) (hn2 : 2 ≤ n)
    (hubit : getBit (z.bm ((n - 1) * BITS_PER_CHUNK / BITS_PER_DWORD))
      ((n - 1) * BITS_PER_CHUNK % BITS_PER_DWORD + 1) = 1)
    (hmis : read64 z.mem (z.user_pages_start + (n - 1) * z.chunk_size) ≠
        canary_value z (z.user_pages_start + (n - 1) * z.chunk_size) ∨
      read64 z.mem (z.user_pages_start + (n - 1) * z.chunk_size + z.chunk_size - 8) ≠
        canary_value z (z.user_pages_start + (n - 1) * z.chunk_size)) :
    ∃ e, check_under_neighbor (free_updated_zone z n perm)
      (z.user_pages_start + n * z.chunk_size) n = Except.error e := by
  have hpre : n * z.chunk_size = (n - 1) * z.chunk_size + z.chunk_size := by
    rcases n with _ | m
    · omega
    · simp [Nat.succ_mul]
  have hcpos : z.chunk_size ≤ (n - 1) * z.chunk_size := by
    have h := Nat.mul_le_mul_right z.chunk_size (show 1 ≤ n - 1 by omega)
    simpa using h
  have hcond1 : (free_updated_zone z n perm).user_pages_start <
      z.user_pages_start + n * z.chunk_size - (free_updated_zone z n perm).chunk_size := by
    rw [free_updated_zone_start, free_updated_zone_chunk_size]
    omega
  have h32 : (n - 1) * BITS_PER_CHUNK % BITS_PER_DWORD + 1 < 32 := by
    simp only [BITS_PER_CHUNK, BITS_PER_DWORD]
    omega
  have hne1 : (n - 1) * BITS_PER_CHUNK % BITS_PER_DWORD + 1 ≠
      n * BITS_PER_CHUNK % BITS_PER_DWORD := by
    simp only [BITS_PER_CHUNK, BITS_PER_DWORD]
    omega
  have hne2 : (n - 1) * BITS_PER_CHUNK % BITS_PER_DWORD + 1 ≠
      n * BITS_PER_CHUNK % BITS_PER_DWORD + 1 := by
    simp only [BITS_PER_CHUNK, BITS_PER_DWORD]
    omega
  have hbitcond : getBit
      ((free_updated_zone z n perm).bm ((n - 1) * BITS_PER_CHUNK / BITS_PER_DWORD))
      ((n - 1) * BITS_PER_CHUNK % BITS_PER_DWORD + 1) = 1 := by
    simp only [free_updated_zone]
    by_cases hdw : (n - 1) * BITS_PER_CHUNK / BITS_PER_DWORD =
        n * BITS_PER_CHUNK / BITS_PER_DWORD
    · rw [hdw, Function.update_same]
      rw [getBit_free_update (z.bm (n * BITS_PER_CHUNK / BITS_PER_DWORD))
        (n * BITS_PER_CHUNK % BITS_PER_DWORD)
        ((n - 1) * BITS_PER_CHUNK % BITS_PER_DWORD + 1) perm h32 hne1 hne2]
      rw [hdw] at hubit
      exact hubit
    · rw [Function.update_noteq hdw]
      exact hubit
  have hptr : pointer_from_bitslot (free_updated_zone z n perm) ((n - 1) * BITS_PER_CHUNK) =
      z.user_pages_start + (n - 1) * z.chunk_size := by
    simp only [pointer_from_bitslot, free_updated_zone_start, free_updated_zone_chunk_size]
    have hq : (n - 1) * BITS_PER_CHUNK / BITS_PER_CHUNK = n - 1 := by
      simp only [BITS_PER_CHUNK]
      omega
    rw [hq]
  simp only [check_under_neighbor]
  rw [if_pos hcond1, if_pos hbitcond, hptr, free_updated_zone_mem]
  apply check_canary_error_of_mismatch
  simp only [free_updated_zone_canary_value, free_updated_zone_chunk_size]
  rcases hmis with hm | hm
  · left
    rw [free_mem_read_out z (z.user_pages_start + n * z.chunk_size) _ hcs16 (by omega)]
    exact hm
  · right
    rw [free_mem_read_out z (z.user_pages_start + n * z.chunk_size) _ hcs16 (by omega)]
    exact hm

set_option maxRecDepth 4000 in
/-- C5 counterexample: in zone zC5, chunk 1 is in use and chunk 0 (the chunk
immediately before, in range) has its "was used" bit set while its canary slot
reads 0 instead of the canary value, yet iso_free_chunk_from_zone on chunk 1
succeeds: the strict `>` at iso_alloc.c:780 makes the under-neighbor audit skip
a neighbor that is the first chunk of the zone, contrary to the claim that the
chunk immediately before is audited whenever the freed chunk is not the first. -/
theorem C5_counterexample :
    (4112 - zC5.user_pages_start) / zC5.chunk_size = 1 ∧
    getBit (zC5.bm 0) 1 = 1 ∧
    read64 zC5.mem 4096 ≠ canary_value zC5 4096 ∧
    (iso_free_chunk_from_zone zC5 4112 false).isOk = true ∧
    getBit (zC5_freed.bm 0) 1 = 1 ∧
    read64 zC5_freed.mem 4096 ≠ canary_value zC5 4096 := by
  refine ⟨by decide, by decide, by decide, by decide, by decide, by decide⟩

/-- C5, amended: on a validated free of chunk n, the over-neighbor (chunk n+1,
when in range) with its "was used" bit set is canary-audited and a mismatch
aborts; but the under-neighbor (chunk n-1) is audited only when the freed chunk's
index is at least 2 — the strict `>` at iso_alloc.c:780 silently skips the audit
when the under-neighbor is the first chunk of the zone.  Both implications end
in an abort (Except.error) of the whole free. -/
theorem C5_neighbor_canary_amended (z : iso_alloc_zone) (n : Nat) (perm : Bool)
    (hcs16 : 16 ≤ z.chunk_size) (hcs8 : z.chunk_size % ALIGNMENT = 0)
    (hst8 : z.user_pages_start % ALIGNMENT = 0)
    (hbmr : n * BITS_PER_CHUNK / BITS_PER_DWORD < z.bitmap_size)
    (hbit : getBit (z.bm (n * BITS_PER_CHUNK / BITS_PER_DWORD))
      (n * BITS_PER_CHUNK % BITS_PER_DWORD) = 1) :
    (z.user_pages_start + n * z.chunk_size + z.chunk_size < user_pages_end z →
      getBit (z.bm ((n + 1) * BITS_PER_CHUNK / BITS_PER_DWORD))
        ((n + 1) * BITS_PER_CHUNK % BITS_PER_DWORD + 1) = 1 →
      (read64 z.mem (z.user_pages_start + (n + 1) * z.chunk_size) ≠
          canary_value z (z.user_pages_start + (n + 1) * z.chunk_size) ∨
        read64 z.mem (z.user_pages_start + (n + 1) * z.chunk_size + z.chunk_size - 8) ≠
          canary_value z (z.user_pages_start + (n + 1) * z.chunk_size)) →
      ∃ e, iso_free_chunk_from_zone z (z.user_pages_start + n * z.chunk_size) perm =
        Except.error e) ∧
    (2 ≤ n →
      getBit (z.bm ((n - 1) * BITS_PER_CHUNK / BITS_PER_DWORD))
        ((n - 1) * BITS_PER_CHUNK % BITS_PER_DWORD + 1) = 1 →
      (read64 z.mem (z.user_pages_start + (n - 1) * z.chunk_size) ≠
          canary_value z (z.user_pages_start + (n - 1) * z.chunk_size) ∨
        read64 z.mem (z.user_pages_start + (n - 1) * z.chunk_size + z.chunk_size - 8) ≠
          canary_value z (z.user_pages_start + (n - 1) * z.chunk_size)) →
      ∃ e, iso_free_chunk_from_zone z (z.user_pages_start + n * z.chunk_size) perm =
        Except.error e) := by
  have hdo := iso_free_eq_do z n perm hcs16 hcs8 hst8 hbmr hbit
  constructor
  · intro hov hobit hmis
    obtain ⟨e, he⟩ := check_over_neighbor_error z n perm hcs16 hov hobit hmis
    refine ⟨e, ?_⟩
    rw [hdo, he, except_error_bind]
  · intro hn2 hubit hmis
    obtain ⟨e, he⟩ := check_under_neighbor_error z n perm hcs16 hn2 hubit hmis
    cases hco : check_over_neighbor (free_updated_zone z n perm)
        (z.user_pages_start + n * z.chunk_size) n with
    | error e0 =>
      refine ⟨e0, ?_⟩
      rw [hdo, hco, except_error_bind]
    | ok u =>
      cases u
      refine ⟨e, ?_⟩
      rw [hdo, hco, except_ok_bind, he, except_error_bind]

set_option maxRecDepth 4000 in
/-- Witness for C5_neighbor_canary_amended: in zone zC5w chunk 2 is in use and
chunk 1 ("was used" bit set, canary slot reading 0) is its under-neighbor;
freeing chunk 2 aborts. -/
theorem C5_neighbor_canary_amended_witness :
    ∃ e, iso_free_chunk_from_zone zC5w (zC5w.user_pages_start + 2 * zC5w.chunk_size) false =
      Except.error e :=
  (C5_neighbor_canary_amended zC5w 2 false (by decide) (by decide) (by decide) (by decide)
    (by decide)).2 (by decide) (by decide) (Or.inl (by decide))
